import Mathlib

/-!
# UDT1CRI USB/CAN adapter driver (`udt1cri_usb.c`)

A shallow embedding of the protocol engine of the driver: the 20-byte message
codec, the receive dispatcher, the transmit-context pool, the transmit path and
the bit-timing table, followed by theorems about them.

Conventions of the embedding.

* Machine integers are natural numbers; `u8` stores are reduced modulo 256 and
  `u32` arithmetic modulo `2 ^ 32` where the source computes a new value. The
  `unsigned long` counters of `netdev->stats` are plain natural numbers: their
  wrap-around at the word size is not modelled.
* A `struct udt1cri_usb_msg *` is the list of bytes that starts at the pointer
  and runs to the end of the buffer holding the message. Fields of the packed
  structures are read at their byte offsets.
* A `u8 data[8]` array that is the target of `memcpy` is a list of bytes. When
  a copy is longer than the array, the bytes written past its end are the list
  elements from position 8 on, so a data list longer than 8 is an overflow.
* Calls into the kernel (network stack, USB core, log) are appended to
  `udt1cri_priv.trace` in program order. Results the kernel hands back
  (allocations, `usb_submit_urb` return values, stack garbage of automatic
  variables) are parameters of the embedded functions.
* A bitrate request reaches `udt1cri_net_set_bittiming` through the CAN device
  layer, which first computes a bit timing from the clock and the constants
  the driver registers. The part of that kernel calculation that fixes the
  bitrate handed to the driver is embedded as a kernel helper.
-/

namespace Udt1cri

/-! ## Constants -/

def UDT1CRI_MAX_RX_URBS : Nat := 20
def UDT1CRI_MAX_TX_URBS : Nat := 20
def UDT1CRI_CTX_FREE : Nat := UDT1CRI_MAX_TX_URBS
def UDT1CRI_USB_RX_BUFF_SIZE : Nat := 512
/-- The value of `sizeof(struct udt1cri_usb_msg)`: one tag byte and 19 payload bytes. -/
def UDT1CRI_USB_TX_BUFF_SIZE : Nat := 20
/-- The clock `udt1cri_usb_probe` registers as `priv->can.clock.freq`, in Hz. -/
def UDT1CRI_CAN_CLOCK : Nat := 40000000

def UDT1CRI_CMD_RECEIVE_MESSAGE : Nat := 0xE3
def UDT1CRI_CMD_I_AM_ALIVE_FROM_CAN : Nat := 0xF5
def UDT1CRI_CMD_I_AM_ALIVE_FROM_USB : Nat := 0xF7
def UDT1CRI_CMD_CHANGE_BIT_RATE : Nat := 0xA1
def UDT1CRI_CMD_TRANSMIT_MESSAGE_EV : Nat := 0xA3
def UDT1CRI_CMD_SETUP_TERMINATION_RESISTANCE : Nat := 0xA8
def UDT1CRI_CMD_READ_FW_VERSION : Nat := 0xA9
def UDT1CRI_CMD_NOTHING_TO_SEND : Nat := 0xFF
def UDT1CRI_CMD_TRANSMIT_MESSAGE_RSP : Nat := 0xE2

def UDT1CRI_VER_REQ_USB : Nat := 1
def UDT1CRI_VER_REQ_CAN : Nat := 2

def UDT1CRI_DLC_MASK : Nat := 0xf
def UDT1CRI_DLC_RTR_MASK : Nat := 0x40
def UDT1CRI_CAN_RTR_MASK : Nat := 0x40000000
def UDT1CRI_CAN_EXID_MASK : Nat := 0x80000000

def FLAG_CAN_EID : Nat := 0x01
def FLAG_CAN_RTR : Nat := 0x02
def FLAG_CAN_FDF : Nat := 0x08

/-- Kernel constant of `linux/can.h`: extended frame format bit of `can_id`. -/
def CAN_EFF_FLAG : Nat := 0x80000000
/-- Kernel constant of `linux/can.h`: remote transmission request bit of `can_id`. -/
def CAN_RTR_FLAG : Nat := 0x40000000

def ENOENT : Int := 2
def ENOMEM : Int := 12
def ENODEV : Int := 19
def EINVAL : Int := 22
def EPIPE : Int := 32
def EDOM : Int := 33
def EPROTO : Int := 71
def ESHUTDOWN : Int := 108

def NETDEV_TX_OK : Nat := 0x00
def NETDEV_TX_BUSY : Nat := 0x10

/-! ## Data model -/

/-- Kernel `struct can_frame`: `can_id` is a `u32` (bits 0..28 identifier, bit 30
RTR, bit 31 extended), `can_dlc` a `u8`, `data` the `u8 data[8]` array. -/
structure can_frame where
  can_id : Nat
  can_dlc : Nat
  data : List Nat
deriving DecidableEq, Repr

/-- One entry of `tx_context`: `struct udt1cri_usb_ctx`. The back pointer
`priv` is recorded as set (`true`) or null (`false`). -/
structure udt1cri_usb_ctx where
  priv : Bool
  ndx : Nat
  dlc : Nat
  can : Bool
deriving DecidableEq, Repr, Inhabited

/-- Kernel `struct can_berr_counter`. -/
structure can_berr_counter where
  txerr : Nat
  rxerr : Nat
deriving DecidableEq, Repr

/-- Kernel `struct can_bittiming` (all fields `u32`). -/
structure can_bittiming where
  bitrate : Nat
  sample_point : Nat
  tq : Nat
  prop_seg : Nat
  phase_seg1 : Nat
  phase_seg2 : Nat
  sjw : Nat
  brp : Nat
deriving DecidableEq, Repr

structure bitrate_settings where
  bt : can_bittiming
  kbps : Nat
deriving DecidableEq, Repr

/-- The counters of `netdev->stats` the driver touches. -/
structure net_device_stats where
  rx_packets : Nat
  rx_bytes : Nat
  tx_packets : Nat
  tx_bytes : Nat
  tx_dropped : Nat
deriving DecidableEq, Repr

/-- Calls the driver makes into the kernel, as they appear in the trace. -/
inductive event where
  | netif_rx (cf : can_frame)
  | info_usb_version (major minor : Nat)
  | info_can_version (major minor : Nat)
  | warn_unsupported_msg (cmd_id : Nat)
  | err_format
  | info_rx_urb_aborted (status : Int)
  | submit_read_urb
  | err_resubmit (retval : Int)
  | netif_device_detach
  | netif_stop_queue
  | netif_wake_queue
  | err_no_urb
  | err_no_usb_buffer
  | usb_submit_write_urb (ctx : Nat) (buf : List Nat) (err : Int)
  | warn_failed_tx_urb (err : Int)
  | usb_free_coherent
  | info_tx_urb_aborted (status : Int)
  | err_echo_occupied
  | echo_loopback (cf : can_frame)
  | dev_kfree_skb (skb : Option can_frame)
  | err_unsupported_bitrate (bitrate : Nat)
deriving DecidableEq, Repr

/-- The device state: the fields of `struct udt1cri_priv` the protocol engine
uses, the parts of the `net_device` it reaches through `priv->netdev`
(`stats`, the present bit, the queue state, the echo table of `can_priv`,
`can.bittiming`), and the trace of kernel calls. -/
structure udt1cri_priv where
  tx_context : List udt1cri_usb_ctx
  echo_skb : List (Option can_frame)
  bec : can_berr_counter
  termination_state : Nat
  usb_ka_first_pass : Bool
  can_ka_first_pass : Bool
  bittiming : can_bittiming
  stats : net_device_stats
  present : Bool
  queue_stopped : Bool
  trace : List event
deriving DecidableEq, Repr

/-! ## Message layout -/

/-- The value `__le32_to_cpu` gives for a `u32` field whose bytes in memory are `b`. -/
def le32_to_cpu (b : List Nat) : Nat :=
  b.getD 0 0 + 256 * b.getD 1 0 + 65536 * b.getD 2 0 + 16777216 * b.getD 3 0

/-- The bytes in memory of a `u32` field that holds `__cpu_to_le32 x`. -/
def cpu_to_le32 (x : Nat) : List Nat :=
  [x % 256, x / 256 % 256, x / 65536 % 256, x / 16777216 % 256]

/-- The C `memcpy(dst, src, n)`, where `dst` and `src` are the bytes from the
two pointers on: the first `n` bytes at `dst` become the first `n` bytes at
`src`, the rest of `dst` is kept. -/
def memcpy (dst src : List Nat) (n : Nat) : List Nat :=
  src.take n ++ dst.drop n

/-- Field offsets of `struct __packed udt1cri_usb_msg_can`. -/
def udt1cri_usb_msg_can.cmd_id (m : List Nat) : Nat := m.getD 0 0
def udt1cri_usb_msg_can.dlc (m : List Nat) : Nat := m.getD 1 0
def udt1cri_usb_msg_can.flags (m : List Nat) : Nat := m.getD 2 0
def udt1cri_usb_msg_can.checksum (m : List Nat) : Nat := m.getD 3 0
/-- The four bytes of the `eid` field. -/
def udt1cri_usb_msg_can.eid (m : List Nat) : List Nat := (m.drop 4).take 4
/-- The four bytes of the `timestamp` field. -/
def udt1cri_usb_msg_can.timestamp (m : List Nat) : List Nat := (m.drop 8).take 4
/-- The pointer `msg->data`: the memory from offset 12 on. -/
def udt1cri_usb_msg_can.data (m : List Nat) : List Nat := m.drop 12

/-- Field offsets of `struct __packed udt1cri_usb_msg_ka_usb`. -/
def udt1cri_usb_msg_ka_usb.termination_state (m : List Nat) : Nat := m.getD 1 0
def udt1cri_usb_msg_ka_usb.soft_ver_major (m : List Nat) : Nat := m.getD 2 0
def udt1cri_usb_msg_ka_usb.soft_ver_minor (m : List Nat) : Nat := m.getD 3 0

/-- Field offsets of `struct __packed udt1cri_usb_msg_ka_can`. -/
def udt1cri_usb_msg_ka_can.tx_err_cnt (m : List Nat) : Nat := m.getD 1 0
def udt1cri_usb_msg_ka_can.rx_err_cnt (m : List Nat) : Nat := m.getD 2 0
def udt1cri_usb_msg_ka_can.soft_ver_major (m : List Nat) : Nat := m.getD 10 0
def udt1cri_usb_msg_ka_can.soft_ver_minor (m : List Nat) : Nat := m.getD 11 0

def UDT1CRI_TX_IS_RTR (cf : can_frame) : Nat := cf.can_id &&& UDT1CRI_CAN_RTR_MASK
def UDT1CRI_TX_IS_EXID (cf : can_frame) : Nat := cf.can_id &&& UDT1CRI_CAN_EXID_MASK

/-! ## Receive path -/

/-- The frame `udt1cri_usb_process_can` builds in the `can_frame` `cf` that
`alloc_can_skb` handed out, from the message at `msg`. -/
def udt1cri_usb_process_can_frame (msg : List Nat) (cf : can_frame) : can_frame :=
  let cf := { cf with can_id := le32_to_cpu (udt1cri_usb_msg_can.eid msg) }
  let cf := if udt1cri_usb_msg_can.flags msg &&& FLAG_CAN_EID ≠ 0
    then { cf with can_id := cf.can_id ||| CAN_EFF_FLAG } else cf
  let cf := if udt1cri_usb_msg_can.flags msg &&& FLAG_CAN_RTR ≠ 0
    then { cf with can_id := cf.can_id ||| CAN_RTR_FLAG } else cf
  let cf := { cf with can_dlc := udt1cri_usb_msg_can.dlc msg &&& UDT1CRI_DLC_MASK }
  { cf with data := memcpy cf.data (udt1cri_usb_msg_can.data msg) cf.can_dlc }

/-- The handler `udt1cri_usb_process_can`. `skb` is what `alloc_can_skb`
returned: `none` for a null pointer, else the frame inside the new buffer. -/
def udt1cri_usb_process_can (priv : udt1cri_priv) (msg : List Nat)
    (skb : Option can_frame) : udt1cri_priv :=
  match skb with
  | none => priv
  | some cf0 =>
    let cf := udt1cri_usb_process_can_frame msg cf0
    { priv with
      stats := { priv.stats with
        rx_packets := priv.stats.rx_packets + 1
        rx_bytes := priv.stats.rx_bytes + cf.can_dlc }
      trace := priv.trace ++ [event.netif_rx cf] }

def udt1cri_usb_process_ka_usb (priv : udt1cri_priv) (msg : List Nat) : udt1cri_priv :=
  let priv := if priv.usb_ka_first_pass then
      { priv with
        trace := priv.trace ++ [event.info_usb_version
          (udt1cri_usb_msg_ka_usb.soft_ver_major msg) (udt1cri_usb_msg_ka_usb.soft_ver_minor msg)]
        usb_ka_first_pass := false }
    else priv
  { priv with termination_state := udt1cri_usb_msg_ka_usb.termination_state msg }

def udt1cri_usb_process_ka_can (priv : udt1cri_priv) (msg : List Nat) : udt1cri_priv :=
  let priv := if priv.can_ka_first_pass then
      { priv with
        trace := priv.trace ++ [event.info_can_version
          (udt1cri_usb_msg_ka_can.soft_ver_major msg) (udt1cri_usb_msg_ka_can.soft_ver_minor msg)]
        can_ka_first_pass := false }
    else priv
  { priv with bec := { txerr := udt1cri_usb_msg_ka_can.tx_err_cnt msg
                       rxerr := udt1cri_usb_msg_ka_can.rx_err_cnt msg } }

/-- The dispatcher `udt1cri_usb_process_rx`; `skb` is the result `alloc_can_skb`
gives if the handler asks for a buffer. -/
def udt1cri_usb_process_rx (priv : udt1cri_priv) (msg : List Nat)
    (skb : Option can_frame) : udt1cri_priv :=
  let cmd_id := udt1cri_usb_msg_can.cmd_id msg
  if cmd_id = UDT1CRI_CMD_I_AM_ALIVE_FROM_CAN then udt1cri_usb_process_ka_can priv msg
  else if cmd_id = UDT1CRI_CMD_I_AM_ALIVE_FROM_USB then udt1cri_usb_process_ka_usb priv msg
  else if cmd_id = UDT1CRI_CMD_RECEIVE_MESSAGE then udt1cri_usb_process_can priv msg skb
  else if cmd_id = UDT1CRI_CMD_NOTHING_TO_SEND then priv
  else if cmd_id = UDT1CRI_CMD_TRANSMIT_MESSAGE_RSP then priv
  else { priv with trace := priv.trace ++ [event.warn_unsupported_msg cmd_id] }

/-- A read completion: `urb->status`, `urb->transfer_buffer` (all of its
`UDT1CRI_USB_RX_BUFF_SIZE` bytes) and `urb->actual_length`. -/
structure read_urb where
  status : Int
  transfer_buffer : List Nat
  actual_length : Nat
deriving DecidableEq, Repr

/-- The `while (pos < urb->actual_length)` loop of the read callback. The first
argument bounds the number of turns; `pos` grows by 20 each turn, so
`actual_length` turns are always enough. `skbs pos` is what `alloc_can_skb`
returns for the message at offset `pos`. -/
def udt1cri_usb_read_loop (urb : read_urb) (skbs : Nat → Option can_frame) :
    Nat → Nat → udt1cri_priv → udt1cri_priv
  | 0, _, priv => priv
  | n + 1, pos, priv =>
    if pos < urb.actual_length then
      if pos + UDT1CRI_USB_TX_BUFF_SIZE > urb.actual_length then
        { priv with trace := priv.trace ++ [event.err_format] }
      else
        udt1cri_usb_read_loop urb skbs n (pos + UDT1CRI_USB_TX_BUFF_SIZE)
          (udt1cri_usb_process_rx priv (urb.transfer_buffer.drop pos) (skbs pos))
    else priv

/-- The tail of the read callback from the label `resubmit_urb`; `retval` is
the value `usb_submit_urb` returns. -/
def udt1cri_usb_read_resubmit (priv : udt1cri_priv) (retval : Int) : udt1cri_priv :=
  let priv := { priv with trace := priv.trace ++ [event.submit_read_urb] }
  if retval = -ENODEV then
    { priv with present := false, trace := priv.trace ++ [event.netif_device_detach] }
  else if retval ≠ 0 then
    { priv with trace := priv.trace ++ [event.err_resubmit retval] }
  else priv

def udt1cri_usb_read_bulk_callback (priv : udt1cri_priv) (urb : read_urb)
    (skbs : Nat → Option can_frame) (retval : Int) : udt1cri_priv :=
  if !priv.present then priv
  else if urb.status = 0 then
    udt1cri_usb_read_resubmit
      (udt1cri_usb_read_loop urb skbs urb.actual_length 0 priv) retval
  else if urb.status = -ENOENT ∨ urb.status = -EPIPE ∨ urb.status = -EPROTO
      ∨ urb.status = -ESHUTDOWN then priv
  else
    udt1cri_usb_read_resubmit
      { priv with trace := priv.trace ++ [event.info_rx_urb_aborted urb.status] } retval

/-! ## Transmit-context pool -/

/-- The loop of `udt1cri_init_ctx`: `n` turns are left and `i` is the loop index. -/
def udt1cri_init_ctx_loop : Nat → Nat → List udt1cri_usb_ctx → List udt1cri_usb_ctx
  | 0, _, t => t
  | n + 1, i, t =>
    udt1cri_init_ctx_loop n (i + 1) (t.set i { t.getD i default with ndx := UDT1CRI_CTX_FREE })

def udt1cri_init_ctx (priv : udt1cri_priv) : udt1cri_priv :=
  { priv with tx_context := udt1cri_init_ctx_loop UDT1CRI_MAX_TX_URBS 0 priv.tx_context }

/-- The loop of `udt1cri_usb_get_free_ctx`: `n` turns are left and `i` is the
loop index. The result is the index of the context returned (`none` for the
null pointer) and the table after the call. -/
def udt1cri_usb_get_free_ctx_loop (t : List udt1cri_usb_ctx) :
    Nat → Nat → Option Nat × List udt1cri_usb_ctx
  | 0, _ => (none, t)
  | n + 1, i =>
    if (t.getD i default).ndx = UDT1CRI_CTX_FREE then
      (some i, t.set i { t.getD i default with ndx := i, priv := true })
    else udt1cri_usb_get_free_ctx_loop t n (i + 1)

def udt1cri_usb_get_free_ctx (priv : udt1cri_priv) : Option Nat × udt1cri_priv :=
  let r := udt1cri_usb_get_free_ctx_loop priv.tx_context UDT1CRI_MAX_TX_URBS 0
  (r.1, { priv with tx_context := r.2 })

/-- The function `udt1cri_usb_free_ctx`, for the context at index `ctx`. -/
def udt1cri_usb_free_ctx (priv : udt1cri_priv) (ctx : Nat) : udt1cri_priv :=
  { priv with tx_context :=
      priv.tx_context.set ctx { ndx := UDT1CRI_CTX_FREE, priv := false, dlc := 0, can := false } }

/-- An operation on the pool: an acquire or the release of one context. -/
inductive pool_op where
  | acquire
  | release (ctx : Fin 20)
deriving DecidableEq, Repr

def pool_step (priv : udt1cri_priv) : pool_op → udt1cri_priv
  | pool_op.acquire => (udt1cri_usb_get_free_ctx priv).2
  | pool_op.release ctx => udt1cri_usb_free_ctx priv ctx.val

def pool_run (priv : udt1cri_priv) (ops : List pool_op) : udt1cri_priv :=
  ops.foldl pool_step priv

/-- The number of contexts in use: those whose `ndx` is not `UDT1CRI_CTX_FREE`. -/
def in_use_count (priv : udt1cri_priv) : Nat :=
  priv.tx_context.countP (fun c => decide (c.ndx ≠ UDT1CRI_CTX_FREE))

/-! ## Transmit path -/

/-- What the kernel answers during one `udt1cri_usb_xmit`: whether
`usb_alloc_urb` and `usb_alloc_coherent` returned memory, and the return value
of `usb_submit_urb`. -/
structure xmit_env where
  urb : Bool
  buf : Bool
  err : Int
deriving DecidableEq, Repr

/-- Kernel helper `can_put_echo_skb` of the CAN device layer, by its effect on
the echo table: the frame is stored when the entry is empty, else it is freed
and the occupied entry reported. -/
def can_put_echo_skb (priv : udt1cri_priv) (skb : can_frame) (idx : Nat) : udt1cri_priv :=
  if priv.echo_skb.getD idx none = none then
    { priv with echo_skb := priv.echo_skb.set idx (some skb) }
  else
    { priv with trace := priv.trace ++ [event.err_echo_occupied, event.dev_kfree_skb (some skb)] }

/-- Kernel helper `can_free_echo_skb` of the CAN device layer: the entry is emptied. -/
def can_free_echo_skb (priv : udt1cri_priv) (idx : Nat) : udt1cri_priv :=
  { priv with echo_skb := priv.echo_skb.set idx none }

/-- The exit of `udt1cri_usb_xmit` from the label `nomem`. -/
def udt1cri_usb_xmit_nomem (priv : udt1cri_priv) (ctx : Nat) (skb : Option can_frame) :
    Nat × udt1cri_priv :=
  let priv := can_free_echo_skb priv (priv.tx_context.getD ctx default).ndx
  let priv := { priv with trace := priv.trace ++ [event.dev_kfree_skb skb] }
  (NETDEV_TX_OK, { priv with stats := { priv.stats with tx_dropped := priv.stats.tx_dropped + 1 } })

/-- The function `udt1cri_usb_xmit`: `usb_msg` is the message to send, `skb` the
frame it carries (`none` for the null pointer of a control command). The
result is the return code and the state after the call. -/
def udt1cri_usb_xmit (priv : udt1cri_priv) (usb_msg : List Nat) (skb : Option can_frame)
    (env : xmit_env) : Nat × udt1cri_priv :=
  match udt1cri_usb_get_free_ctx priv with
  | (none, priv) =>
    (NETDEV_TX_BUSY,
      { priv with queue_stopped := true, trace := priv.trace ++ [event.netif_stop_queue] })
  | (some ctx, priv) =>
    let priv := match skb with
      | some cf =>
        let priv := { priv with tx_context := priv.tx_context.set ctx (
          { priv.tx_context.getD ctx default with
            dlc := udt1cri_usb_msg_can.dlc usb_msg &&& UDT1CRI_DLC_MASK }) }
        let priv := can_put_echo_skb priv cf (priv.tx_context.getD ctx default).ndx
        { priv with tx_context :=
          priv.tx_context.set ctx { priv.tx_context.getD ctx default with can := true } }
      | none =>
        { priv with tx_context :=
          priv.tx_context.set ctx { priv.tx_context.getD ctx default with can := false } }
    if !env.urb then
      udt1cri_usb_xmit_nomem { priv with trace := priv.trace ++ [event.err_no_urb] } ctx skb
    else if !env.buf then
      udt1cri_usb_xmit_nomem { priv with trace := priv.trace ++ [event.err_no_usb_buffer] } ctx skb
    else
      let buf := usb_msg.take UDT1CRI_USB_TX_BUFF_SIZE
      let priv := { priv with trace := priv.trace ++ [event.usb_submit_write_urb ctx buf env.err] }
      if env.err ≠ 0 then
        let priv := { priv with trace := priv.trace ++ [event.usb_free_coherent] }
        let priv := if env.err = -ENODEV then
            { priv with present := false, trace := priv.trace ++ [event.netif_device_detach] }
          else { priv with trace := priv.trace ++ [event.warn_failed_tx_urb env.err] }
        udt1cri_usb_xmit_nomem priv ctx skb
      else (NETDEV_TX_OK, priv)

def udt1cri_usb_xmit_cmd (priv : udt1cri_priv) (usb_msg : List Nat) (env : xmit_env) :
    udt1cri_priv :=
  (udt1cri_usb_xmit priv usb_msg none env).2

/-- The message `udt1cri_usb_xmit_change_bitrate` builds in its automatic
variable, whose 20 bytes hold `stack` on entry. -/
def udt1cri_usb_msg_change_bitrate (bitrate : Nat) (stack : List Nat) : List Nat :=
  let usb_msg := stack.set 0 UDT1CRI_CMD_CHANGE_BIT_RATE
  let usb_msg := usb_msg.set 1 (((0xff00 &&& bitrate) >>> 8) % 256)
  usb_msg.set 2 ((0xff &&& bitrate) % 256)

def udt1cri_usb_xmit_change_bitrate (priv : udt1cri_priv) (bitrate : Nat) (stack : List Nat)
    (env : xmit_env) : udt1cri_priv :=
  udt1cri_usb_xmit_cmd priv (udt1cri_usb_msg_change_bitrate bitrate stack) env

/-- The message `udt1cri_usb_start_xmit` builds for the frame `cf` in its
automatic variable `usb_msg`, whose 20 bytes hold `stack` on entry. -/
def udt1cri_usb_start_xmit_msg (cf : can_frame) (stack : List Nat) : List Nat :=
  let usb_msg := stack.set 0 UDT1CRI_CMD_TRANSMIT_MESSAGE_EV
  let usb_msg := usb_msg.take 12 ++ memcpy (usb_msg.drop 12) cf.data 8
  let usb_msg := usb_msg.take 4 ++ memcpy (usb_msg.drop 4) (cpu_to_le32 cf.can_id) 4
  let usb_msg := usb_msg.set 1 (cf.can_dlc % 256)
  if UDT1CRI_TX_IS_RTR cf ≠ 0 then
    usb_msg.set 1 ((udt1cri_usb_msg_can.dlc usb_msg ||| UDT1CRI_DLC_RTR_MASK) % 256)
  else usb_msg

def udt1cri_usb_start_xmit (priv : udt1cri_priv) (cf : can_frame) (stack : List Nat)
    (env : xmit_env) : Nat × udt1cri_priv :=
  udt1cri_usb_xmit priv (udt1cri_usb_start_xmit_msg cf stack) (some cf) env

/-- The message `udt1cri_usb_xmit_read_fw_ver` builds in its automatic variable,
whose 20 bytes hold `stack` on entry. -/
def udt1cri_usb_msg_fw_ver (pic : Nat) (stack : List Nat) : List Nat :=
  let usb_msg := stack.set 0 UDT1CRI_CMD_READ_FW_VERSION
  usb_msg.set 1 (pic % 256)

def udt1cri_usb_xmit_read_fw_ver (priv : udt1cri_priv) (pic : Nat) (stack : List Nat)
    (env : xmit_env) : udt1cri_priv :=
  udt1cri_usb_xmit_cmd priv (udt1cri_usb_msg_fw_ver pic stack) env

/-- The message `udt1cri_usb_xmit_termination` builds in its automatic variable,
whose 20 bytes hold `stack` on entry. -/
def udt1cri_usb_msg_termination (termination : Nat) (stack : List Nat) : List Nat :=
  let usb_msg := stack.set 0 UDT1CRI_CMD_SETUP_TERMINATION_RESISTANCE
  usb_msg.set 1 (termination % 256)

def udt1cri_usb_xmit_termination (priv : udt1cri_priv) (termination : Nat) (stack : List Nat)
    (env : xmit_env) : udt1cri_priv :=
  udt1cri_usb_xmit_cmd priv (udt1cri_usb_msg_termination termination stack) env

/-- The sysfs handler `termination_store`. `kstrtoint` is the kernel parser it
calls with base 10: `some v` stands for the return value 0 with `v` stored in
`tmp`, `none` for an error return, which leaves `tmp` at its initial -1. The
result is the byte count returned and the state after the call. -/
def termination_store (kstrtoint : String → Option Int) (priv : udt1cri_priv) (buf : String)
    (count : Nat) (stack : List Nat) (env : xmit_env) : Nat × udt1cri_priv :=
  let r : Int × Int := match kstrtoint buf with
    | some v => (0, v)
    | none => (-EINVAL, -1)
  if r.1 = 0 ∧ (r.2 = 0 ∨ r.2 = 1) then
    let priv := { priv with termination_state := r.2.toNat % 256 }
    (count, udt1cri_usb_xmit_termination priv priv.termination_state stack env)
  else (count, priv)

/-! ## Write completion -/

/-- Kernel helper `can_get_echo_skb` of the CAN device layer: a stored frame is
handed back to the stack and its entry emptied; an empty entry is left alone. -/
def can_get_echo_skb (priv : udt1cri_priv) (idx : Nat) : udt1cri_priv :=
  match priv.echo_skb.getD idx none with
  | some cf =>
    { priv with echo_skb := priv.echo_skb.set idx none
                trace := priv.trace ++ [event.echo_loopback cf] }
  | none => priv

/-- The part of `udt1cri_usb_write_bulk_callback` after the `if (ctx->can)`
block: the transfer buffer is freed, a non-zero status reported and the
context released. -/
def udt1cri_usb_write_bulk_callback_tail (priv : udt1cri_priv) (ctx : Nat) (status : Int) :
    udt1cri_priv :=
  let priv := { priv with trace := priv.trace ++ [event.usb_free_coherent] }
  let priv := if status ≠ 0 then
      { priv with trace := priv.trace ++ [event.info_tx_urb_aborted status] }
    else priv
  udt1cri_usb_free_ctx priv ctx

/-- The function `udt1cri_usb_write_bulk_callback` for the completion of the
write whose `urb->context` is the context at index `ctx` and whose
`urb->status` is `status`. The context is one `udt1cri_usb_xmit` acquired, so
its back pointer `priv` is set; a completion on a context whose back pointer is
null dereferences it and is outside the embedding. -/
def udt1cri_usb_write_bulk_callback (priv : udt1cri_priv) (ctx : Nat) (status : Int) :
    udt1cri_priv :=
  if (priv.tx_context.getD ctx default).can then
    if !priv.present then priv
    else
      let priv := { priv with stats := { priv.stats with
        tx_packets := priv.stats.tx_packets + 1
        tx_bytes := priv.stats.tx_bytes + (priv.tx_context.getD ctx default).dlc } }
      let priv := can_get_echo_skb priv (priv.tx_context.getD ctx default).ndx
      let priv := { priv with queue_stopped := false
                              trace := priv.trace ++ [event.netif_wake_queue] }
      udt1cri_usb_write_bulk_callback_tail priv ctx status
  else udt1cri_usb_write_bulk_callback_tail priv ctx status

/-! ## Bit timing -/

/-- The table `br_settings`: predefined values hardcoded in the firmware. -/
def br_settings : List bitrate_settings := [
  { bt := { bitrate := 19940, sample_point := 700, tq := 2500, prop_seg := 5,
            phase_seg1 := 8, phase_seg2 := 6, sjw := 1, brp := 100 },
    kbps := 20 },
  { bt := { bitrate := 33333, sample_point := 680, tq := 1200, prop_seg := 8,
            phase_seg1 := 8, phase_seg2 := 8, sjw := 1, brp := 48 },
    kbps := 33 },
  { bt := { bitrate := 50000, sample_point := 800, tq := 1000, prop_seg := 8,
            phase_seg1 := 7, phase_seg2 := 4, sjw := 1, brp := 40 },
    kbps := 50 },
  { bt := { bitrate := 80000, sample_point := 680, tq := 500, prop_seg := 8,
            phase_seg1 := 8, phase_seg2 := 8, sjw := 1, brp := 20 },
    kbps := 80 },
  { bt := { bitrate := 83333, sample_point := 708, tq := 500, prop_seg := 8,
            phase_seg1 := 8, phase_seg2 := 7, sjw := 1, brp := 20 },
    kbps := 83 },
  { bt := { bitrate := 100000, sample_point := 700, tq := 1000, prop_seg := 1,
            phase_seg1 := 5, phase_seg2 := 3, sjw := 1, brp := 40 },
    kbps := 100 },
  { bt := { bitrate := 125000, sample_point := 600, tq := 400, prop_seg := 3,
            phase_seg1 := 8, phase_seg2 := 8, sjw := 1, brp := 16 },
    kbps := 125 },
  { bt := { bitrate := 150375, sample_point := 789, tq := 350, prop_seg := 8,
            phase_seg1 := 6, phase_seg2 := 4, sjw := 1, brp := 14 },
    kbps := 150 },
  { bt := { bitrate := 175438, sample_point := 789, tq := 300, prop_seg := 8,
            phase_seg1 := 6, phase_seg2 := 4, sjw := 1, brp := 12 },
    kbps := 175 },
  { bt := { bitrate := 200000, sample_point := 680, tq := 200, prop_seg := 8,
            phase_seg1 := 8, phase_seg2 := 8, sjw := 1, brp := 8 },
    kbps := 200 },
  { bt := { bitrate := 227272, sample_point := 772, tq := 200, prop_seg := 8,
            phase_seg1 := 8, phase_seg2 := 5, sjw := 1, brp := 8 },
    kbps := 225 },
  { bt := { bitrate := 250000, sample_point := 600, tq := 200, prop_seg := 3,
            phase_seg1 := 8, phase_seg2 := 8, sjw := 1, brp := 8 },
    kbps := 250 },
  { bt := { bitrate := 277777, sample_point := 708, tq := 150, prop_seg := 8,
            phase_seg1 := 8, phase_seg2 := 7, sjw := 1, brp := 6 },
    kbps := 275 },
  { bt := { bitrate := 303030, sample_point := 772, tq := 150, prop_seg := 8,
            phase_seg1 := 8, phase_seg2 := 5, sjw := 1, brp := 6 },
    kbps := 300 },
  { bt := { bitrate := 500000, sample_point := 600, tq := 100, prop_seg := 3,
            phase_seg1 := 8, phase_seg2 := 8, sjw := 1, brp := 4 },
    kbps := 500 },
  { bt := { bitrate := 625000, sample_point := 750, tq := 200, prop_seg := 1,
            phase_seg1 := 4, phase_seg2 := 2, sjw := 1, brp := 8 },
    kbps := 625 },
  { bt := { bitrate := 800000, sample_point := 680, tq := 50, prop_seg := 8,
            phase_seg1 := 8, phase_seg2 := 8, sjw := 1, brp := 2 },
    kbps := 800 },
  { bt := { bitrate := 1000000, sample_point := 600, tq := 50, prop_seg := 3,
            phase_seg1 := 8, phase_seg2 := 8, sjw := 1, brp := 2 },
    kbps := 1000 } ]

/-- The search loop of `udt1cri_net_set_bittiming`: it has no `break`, so the
last matching row wins. -/
def udt1cri_net_set_bittiming_search (bitrate : Nat) : Option bitrate_settings :=
  br_settings.foldl
    (fun settings row => if row.bt.bitrate = bitrate then some row else settings) none

/-- The function `udt1cri_net_set_bittiming`. The request is the `bitrate` of
`priv->can.bittiming`; the result is the return code and the state after. -/
def udt1cri_net_set_bittiming (priv : udt1cri_priv) (stack : List Nat) (env : xmit_env) :
    Int × udt1cri_priv :=
  match udt1cri_net_set_bittiming_search priv.bittiming.bitrate with
  | some settings =>
    let bt := settings.bt
    let bt := { bt with bitrate := 1000000000 /
      (((bt.sjw + bt.prop_seg + bt.phase_seg1 + bt.phase_seg2) * bt.tq) % 2 ^ 32) }
    (0, udt1cri_usb_xmit_change_bitrate { priv with bittiming := bt } settings.kbps stack env)
  | none =>
    (-EINVAL, { priv with
      trace := priv.trace ++ [event.err_unsupported_bitrate priv.bittiming.bitrate] })

/-! ## Bitrate requests through the CAN device layer -/

/-- Kernel `struct can_bittiming_const`: the ranges a driver registers for the
bit-timing calculation of the CAN device layer. -/
structure can_bittiming_const where
  tseg1_min : Nat
  tseg1_max : Nat
  tseg2_min : Nat
  tseg2_max : Nat
  sjw_max : Nat
  brp_min : Nat
  brp_max : Nat
  brp_inc : Nat
deriving DecidableEq, Repr

/-- The constant `udt1cri_bittiming_const`, which `udt1cri_usb_probe` registers
as `priv->can.bittiming_const`. -/
def udt1cri_bittiming_const : can_bittiming_const :=
  { tseg1_min := 1, tseg1_max := 8, tseg2_min := 1, tseg2_max := 8, sjw_max := 4,
    brp_min := 2, brp_max := 128, brp_inc := 2 }

/-- Kernel constant `CAN_CALC_MAX_ERROR`: the highest bitrate error the
calculation lets through, in tenths of a percent. -/
def CAN_CALC_MAX_ERROR : Nat := 50

/-- Kernel helper `can_calc_bittiming` of the CAN device layer, one turn of its
loop over `tseg`. `best` holds `best_error`, `best_tseg` and `best_brp`. The
prescaler for `tseg` is rounded down to a multiple of `brp_inc`; a prescaler
out of range, or a bitrate error above the best so far, leaves `best` as it
is. The kernel also compares sample points among prescalers of equal bitrate
error, and leaves the loop early on an exact match; both only choose between
timings of the same bitrate error and are left out. `nominal_nearest_rate`
shows that this choice cannot change the bitrate for the requests treated
here. -/
def can_calc_bittiming_step (btc : can_bittiming_const) (freq bitrate : Nat)
    (best : Nat × Nat × Nat) (tseg : Nat) : Nat × Nat × Nat :=
  let tsegall := 1 + tseg / 2
  let brp := freq / (tsegall * bitrate) + tseg % 2
  let brp := (brp / btc.brp_inc) * btc.brp_inc
  if brp < btc.brp_min ∨ brp > btc.brp_max then best
  else
    let rate := freq / (brp * tsegall)
    let error := if rate ≤ bitrate then bitrate - rate else rate - bitrate
    if error > best.1 then best
    else (error, tseg / 2, brp)

/-- Kernel helper `can_calc_bittiming`, reduced to the bitrate it leaves in
`priv->can.bittiming` for the requested `bitrate`. The loop runs `tseg` from
`(tseg1_max + tseg2_max) * 2 + 1` down to `(tseg1_min + tseg2_min) * 2`. A best
error above `CAN_CALC_MAX_ERROR` is refused: `none` stands for the return value
`-EDOM`. Else the bitrate stored is `freq / (best_brp * (best_tseg + 1))`. -/
def can_calc_bittiming (btc : can_bittiming_const) (freq bitrate : Nat) : Option Nat :=
  let hi := (btc.tseg1_max + btc.tseg2_max) * 2 + 1
  let lo := (btc.tseg1_min + btc.tseg2_min) * 2
  let best := ((List.range (hi + 1 - lo)).map (fun i => hi - i)).foldl
    (can_calc_bittiming_step btc freq bitrate) (1000000000, 0, 0)
  if best.1 ≠ 0 ∧ best.1 * 1000 / bitrate > CAN_CALC_MAX_ERROR then none
  else some (freq / (best.2.2 * (best.2.1 + 1)))

/-- The bitrates `freq / (brp * (1 + tseg1 + tseg2))` of the bit timings within
`btc`: every prescaler from `brp_min` to `brp_max` that is a multiple of
`brp_inc`, with every segment total from `tseg1_min + tseg2_min` to
`tseg1_max + tseg2_max`. -/
def achievable_bitrates (btc : can_bittiming_const) (freq : Nat) : List Nat :=
  ((List.range (btc.brp_max + 1)).filter
      (fun brp => btc.brp_min ≤ brp ∧ brp % btc.brp_inc = 0)).flatMap
    (fun brp =>
      ((List.range (btc.tseg1_max + btc.tseg2_max + 2)).filter
          (fun q => 1 + btc.tseg1_min + btc.tseg2_min ≤ q)).map
        (fun q => freq / (brp * q)))

/-- Kernel path of a bitrate request (`can_changelink` of the CAN device
layer): the timing computed for the requested `bitrate`, with the clock and the
constants of the driver, is stored in `priv->can.bittiming`, and the
`do_set_bittiming` of the driver, which is `udt1cri_net_set_bittiming`, is
called. Of the record computed only `bitrate` is kept: it is the one field the
driver reads. -/
def can_changelink (priv : udt1cri_priv) (bitrate : Nat) (stack : List Nat) (env : xmit_env) :
    Int × udt1cri_priv :=
  match can_calc_bittiming udt1cri_bittiming_const UDT1CRI_CAN_CLOCK bitrate with
  | none => (-EDOM, priv)
  | some rate =>
    udt1cri_net_set_bittiming
      { priv with bittiming := { priv.bittiming with bitrate := rate } } stack env

/-- The 18 bitrates the error text of `udt1cri_net_set_bittiming` tells the
user to choose from. -/
def nominal_bitrates : List Nat :=
  [20000, 33333, 50000, 80000, 83333, 100000, 125000, 150000, 175000, 200000, 225000, 250000,
   275000, 300000, 500000, 625000, 800000, 1000000]

/-! ## Sample values -/

/-- The frame inside a buffer fresh from `alloc_can_skb`, which zero-fills it. -/
def zero_frame : can_frame := { can_id := 0, can_dlc := 0, data := [0, 0, 0, 0, 0, 0, 0, 0] }

/-- A standard data frame with identifier `0x123`, no payload length and eight data bytes. -/
def sample_frame : can_frame :=
  { can_id := 0x123, can_dlc := 0, data := [1, 2, 3, 4, 5, 6, 7, 8] }

/-- A remote-request frame with identifier `0x123` and length 3. -/
def sample_rtr_frame : can_frame :=
  { can_id := 0x40000123, can_dlc := 3, data := [1, 2, 3, 4, 5, 6, 7, 8] }

/-- Twenty zero bytes on the stack. -/
def zero_stack : List Nat := List.replicate 20 0

/-- Twenty stack bytes of which the one at the offset of `flags` is `0x01`. -/
def dirty_stack : List Nat := [0, 0, 1, 0, 0, 0, 0, 0, 0, 0, 0, 0, 0, 0, 0, 0, 0, 0, 0, 0]

/-- A receive buffer whose first message has tag `0xE3` and DLC byte `0x0F`; the
bytes after the 20-byte message are `0xAA`. -/
def overlong_rx_buffer : List Nat :=
  [0xE3, 0x0F, 0, 0, 0, 0, 0, 0, 0, 0, 0, 0, 1, 2, 3, 4, 5, 6, 7, 8] ++ List.replicate 492 0xAA

/-- A CAN receive message with DLC byte `0x40`, flags byte 0 and identifier 0. -/
def dlc_rtr_msg : List Nat := [0xE3, 0x40, 0, 0, 0, 0, 0, 0, 0, 0, 0, 0, 0, 0, 0, 0, 0, 0, 0, 0]

/-- A device state as `udt1cri_usb_probe` leaves it before `udt1cri_usb_start`:
memory zeroed by `alloc_candev`, both first-pass flags set. -/
def probe_priv : udt1cri_priv :=
  { tx_context := List.replicate 20 { priv := false, ndx := 0, dlc := 0, can := false }
    echo_skb := List.replicate 20 none
    bec := { txerr := 0, rxerr := 0 }
    termination_state := 0
    usb_ka_first_pass := true
    can_ka_first_pass := true
    bittiming := { bitrate := 0, sample_point := 0, tq := 0, prop_seg := 0, phase_seg1 := 0,
                   phase_seg2 := 0, sjw := 0, brp := 0 }
    stats := { rx_packets := 0, rx_bytes := 0, tx_packets := 0, tx_bytes := 0, tx_dropped := 0 }
    present := true
    queue_stopped := false
    trace := [] }

/-- Three acquires, the release of slot 1, and two more acquires. -/
def sample_ops : List pool_op :=
  [pool_op.acquire, pool_op.acquire, pool_op.acquire, pool_op.release 1, pool_op.acquire,
   pool_op.acquire]

/-- A pool in which slots 0 and 1 are in use, slot 1 carrying a CAN frame of
length 5, and the 18 others are free. -/
def sample_pool_priv : udt1cri_priv :=
  { probe_priv with
    tx_context :=
      [{ priv := true, ndx := 0, dlc := 0, can := false },
       { priv := true, ndx := 1, dlc := 5, can := true }]
      ++ List.replicate 18 { priv := false, ndx := 20, dlc := 0, can := false } }

/-- The kernel answers of a send that goes through: both allocations succeed
and `usb_submit_urb` returns 0. -/
def ok_env : xmit_env := { urb := true, buf := true, err := 0 }

/-- A started device (pool initialised) on which the bitrate `b` is requested. -/
def request_priv (b : Nat) : udt1cri_priv :=
  { udt1cri_init_ctx probe_priv with bittiming := { probe_priv.bittiming with bitrate := b } }

/-- The dispatcher run over a sequence of inbound messages, each paired with
the buffer `alloc_can_skb` would return for it. -/
def process_rx_all (priv : udt1cri_priv) (msgs : List (List Nat × Option can_frame)) :
    udt1cri_priv :=
  msgs.foldl (fun p m => udt1cri_usb_process_rx p m.1 m.2) priv

/-- The USB-side firmware-version reports of a trace, in order. -/
def usb_version_reports (tr : List event) : List event :=
  tr.filter (fun e => match e with
    | event.info_usb_version _ _ => true
    | _ => false)

/-- The CAN-side firmware-version reports of a trace, in order. -/
def can_version_reports (tr : List event) : List event :=
  tr.filter (fun e => match e with
    | event.info_can_version _ _ => true
    | _ => false)

/-- A 20-byte message with tag `0x00`. -/
def unknown_msg : List Nat := List.replicate 20 0

/-- A USB keep-alive: termination state 1, firmware version 1.2. -/
def ka_usb_msg : List Nat := [0xF7, 1, 1, 2] ++ List.replicate 16 0

/-- A later USB keep-alive: termination state 0, firmware version 1.3. -/
def ka_usb_msg2 : List Nat := [0xF7, 0, 1, 3] ++ List.replicate 16 0

/-- A CAN keep-alive: error counters 7 and 9, firmware version 2.5. -/
def ka_can_msg : List Nat := [0xF5, 7, 9, 0, 0, 0, 125, 0, 0, 0, 2, 5] ++ List.replicate 8 0

/-- A CAN receive message: standard identifier `0x123`, length 3, data 1, 2, 3. -/
def can_rx_msg : List Nat :=
  [0xE3, 3, 0, 0, 0x23, 0x01, 0, 0, 0, 0, 0, 0, 1, 2, 3, 0, 0, 0, 0, 0]

/-- An inbound stream with two USB keep-alives and one CAN keep-alive among
other messages. -/
def sample_stream : List (List Nat × Option can_frame) :=
  [(can_rx_msg, some zero_frame), (ka_usb_msg, none), (unknown_msg, none), (ka_usb_msg2, none),
   (ka_can_msg, none), (ka_usb_msg, none)]

/-- The messages a read completion dispatches: for `k` below
`actual_length / 20` the pointer to offset `20 * k` of the transfer buffer,
with the buffer `alloc_can_skb` would return there. -/
def rx_chunks (urb : read_urb) (skbs : Nat → Option can_frame) :
    List (List Nat × Option can_frame) :=
  (List.range (urb.actual_length / UDT1CRI_USB_TX_BUFF_SIZE)).map
    (fun k => (urb.transfer_buffer.drop (UDT1CRI_USB_TX_BUFF_SIZE * k),
      skbs (UDT1CRI_USB_TX_BUFF_SIZE * k)))

/-- A completion of 20 bytes holding the message of `overlong_rx_buffer`. -/
def overlong_urb : read_urb :=
  { status := 0, transfer_buffer := overlong_rx_buffer, actual_length := 20 }

/-- The same completion over a transfer buffer whose bytes from offset 20 on,
past `actual_length`, are `0x55` instead of `0xAA`. -/
def overlong_urb2 : read_urb :=
  { status := 0, transfer_buffer := overlong_rx_buffer.take 20 ++ List.replicate 492 0x55,
    actual_length := 20 }

/-- A completion of 30 bytes: one full CAN receive message and 10 more bytes,
which look like the start of a USB keep-alive. -/
def fragment_urb : read_urb :=
  { status := 0
    transfer_buffer := can_rx_msg ++ [0xF7, 1, 1, 2, 0, 0, 0, 0, 0, 0] ++ List.replicate 482 0
    actual_length := 30 }

/-- An extended data frame with identifier `0x123` and length 2. -/
def sample_ext_frame : can_frame :=
  { can_id := 0x80000123, can_dlc := 2, data := [1, 2, 3, 4, 5, 6, 7, 8] }

/-- Twenty stack bytes that all hold `0xAA`. -/
def aa_stack : List Nat := List.replicate 20 0xAA

/-- A started device: the probed state with the pool initialised. -/
def started_priv : udt1cri_priv := udt1cri_init_ctx probe_priv

/-- The kernel parser reduced to the three inputs `"0"`, `"1"` and `"2"`; every
other text is an error. -/
def sample_kstrtoint (s : String) : Option Int :=
  if s = "0" then some 0 else if s = "1" then some 1 else if s = "2" then some 2 else none

/-- A pool with all 20 slots in use: a started device after 20 acquires. -/
def full_priv : udt1cri_priv := pool_run started_priv (List.replicate 20 pool_op.acquire)

/-- The kernel answers of a send whose `usb_alloc_urb` fails. -/
def no_urb_env : xmit_env := { urb := false, buf := true, err := 0 }

/-- The kernel answers of a send whose `usb_alloc_coherent` fails. -/
def no_buf_env : xmit_env := { urb := true, buf := false, err := 0 }

/-- The kernel answers of a send whose `usb_submit_urb` returns `-EPIPE`. -/
def submit_err_env : xmit_env := { urb := true, buf := true, err := -EPIPE }

/-- A started device after 20 set-termination commands whose URB allocation
failed, with no write in flight. -/
def leaked_priv : udt1cri_priv :=
  (List.range 20).foldl
    (fun p _ => udt1cri_usb_xmit_termination p 1 zero_stack no_urb_env) started_priv

/-- A started device with one CAN frame in flight on slot 0. -/
def in_flight_priv : udt1cri_priv :=
  (udt1cri_usb_start_xmit started_priv sample_rtr_frame zero_stack ok_env).2

/-- The state of `in_flight_priv` after an empty read completion whose
resubmission returned `-ENODEV`, so that the device is detached. -/
def detached_priv : udt1cri_priv :=
  udt1cri_usb_read_bulk_callback in_flight_priv
    { status := 0, transfer_buffer := List.replicate 512 0, actual_length := 0 }
    (fun _ => none) (-ENODEV)

/-- The function `udt1cri_net_get_berr_counter`: `bec` is the record the caller
passes; the result is the return code and the record after the call. -/
def udt1cri_net_get_berr_counter (priv : udt1cri_priv) (bec : can_berr_counter) :
    Int × can_berr_counter :=
  let bec := { bec with txerr := priv.bec.txerr }
  let bec := { bec with rxerr := priv.bec.rxerr }
  (0, bec)

/-- The first row of `br_settings`. -/
def br_settings_row0 : bitrate_settings :=
  { bt := { bitrate := 19940, sample_point := 700, tq := 2500, prop_seg := 5, phase_seg1 := 8,
            phase_seg2 := 6, sjw := 1, brp := 100 },
    kbps := 20 }

/-- A standard data frame with identifier `0x123` and length 3. -/
def sample_std_frame : can_frame :=
  { can_id := 0x123, can_dlc := 3, data := [1, 2, 3, 4, 5, 6, 7, 8] }

/-- Twenty stack bytes of which the one at the offset of `flags` is `0x02`. -/
def rtr_stack : List Nat := [0, 0, 2, 0, 0, 0, 0, 0, 0, 0, 0, 0, 0, 0, 0, 0, 0, 0, 0, 0]

/-- The buffers of the writes of a trace for which `usb_submit_urb` returned 0,
in order: the messages handed to the USB core for the device. -/
def submitted_writes (tr : List event) : List (List Nat) :=
  tr.filterMap (fun e => match e with
    | event.usb_submit_write_urb _ buf err => if err = 0 then some buf else none
    | _ => none)

/-- A device with all 20 slots in use on which the bitrate `b` is requested. -/
def full_request_priv (b : Nat) : udt1cri_priv :=
  { full_priv with bittiming := { full_priv.bittiming with bitrate := b } }

/-! ## Lists of known length -/

theorem list_of_length_8 (l : List Nat) (h : l.length = 8) :
    ∃ b0 b1 b2 b3 b4 b5 b6 b7, l = [b0, b1, b2, b3, b4, b5, b6, b7] := by
  rcases l with _ | ⟨b0, l⟩
  · simp at h
  rcases l with _ | ⟨b1, l⟩
  · simp at h
  rcases l with _ | ⟨b2, l⟩
  · simp at h
  rcases l with _ | ⟨b3, l⟩
  · simp at h
  rcases l with _ | ⟨b4, l⟩
  · simp at h
  rcases l with _ | ⟨b5, l⟩
  · simp at h
  rcases l with _ | ⟨b6, l⟩
  · simp at h
  rcases l with _ | ⟨b7, l⟩
  · simp at h
  rcases l with _ | ⟨x, l⟩
  · exact ⟨b0, b1, b2, b3, b4, b5, b6, b7, rfl⟩
  · simp at h

theorem list_of_length_20 (l : List Nat) (h : l.length = 20) :
    ∃ b0 b1 b2 b3 b4 b5 b6 b7 b8 b9 b10 b11 b12 b13 b14 b15 b16 b17 b18 b19, l = [b0, b1, b2, b3, b4, b5, b6, b7, b8, b9, b10, b11, b12, b13, b14, b15, b16, b17, b18, b19] := by
  rcases l with _ | ⟨b0, l⟩
  · simp at h
  rcases l with _ | ⟨b1, l⟩
  · simp at h
  rcases l with _ | ⟨b2, l⟩
  · simp at h
  rcases l with _ | ⟨b3, l⟩
  · simp at h
  rcases l with _ | ⟨b4, l⟩
  · simp at h
  rcases l with _ | ⟨b5, l⟩
  · simp at h
  rcases l with _ | ⟨b6, l⟩
  · simp at h
  rcases l with _ | ⟨b7, l⟩
  · simp at h
  rcases l with _ | ⟨b8, l⟩
  · simp at h
  rcases l with _ | ⟨b9, l⟩
  · simp at h
  rcases l with _ | ⟨b10, l⟩
  · simp at h
  rcases l with _ | ⟨b11, l⟩
  · simp at h
  rcases l with _ | ⟨b12, l⟩
  · simp at h
  rcases l with _ | ⟨b13, l⟩
  · simp at h
  rcases l with _ | ⟨b14, l⟩
  · simp at h
  rcases l with _ | ⟨b15, l⟩
  · simp at h
  rcases l with _ | ⟨b16, l⟩
  · simp at h
  rcases l with _ | ⟨b17, l⟩
  · simp at h
  rcases l with _ | ⟨b18, l⟩
  · simp at h
  rcases l with _ | ⟨b19, l⟩
  · simp at h
  rcases l with _ | ⟨x, l⟩
  · exact ⟨b0, b1, b2, b3, b4, b5, b6, b7, b8, b9, b10, b11, b12, b13, b14, b15, b16, b17, b18, b19, rfl⟩
  · simp at h

/-! ## Codec -/

theorem le32_round_trip (x : Nat) (h : x < 2 ^ 32) : le32_to_cpu (cpu_to_le32 x) = x := by
  simp only [le32_to_cpu, cpu_to_le32, List.getD_cons_zero, List.getD_cons_succ]
  omega

/-- The message `udt1cri_usb_start_xmit` leaves in its automatic variable, byte by byte. -/
theorem start_xmit_msg_bytes (id dlc d0 d1 d2 d3 d4 d5 d6 d7 : Nat)
    (b0 b1 b2 b3 b4 b5 b6 b7 b8 b9 b10 b11 b12 b13 b14 b15 b16 b17 b18 b19 : Nat) :
    udt1cri_usb_start_xmit_msg ⟨id, dlc, [d0, d1, d2, d3, d4, d5, d6, d7]⟩
      [b0, b1, b2, b3, b4, b5, b6, b7, b8, b9, b10, b11, b12, b13, b14, b15, b16, b17, b18, b19]
      = [UDT1CRI_CMD_TRANSMIT_MESSAGE_EV,
         if id &&& UDT1CRI_CAN_RTR_MASK ≠ 0 then (dlc % 256 ||| UDT1CRI_DLC_RTR_MASK) % 256
         else dlc % 256,
         b2, b3, id % 256, id / 256 % 256, id / 65536 % 256, id / 16777216 % 256,
         b8, b9, b10, b11, d0, d1, d2, d3, d4, d5, d6, d7] := by
  simp only [udt1cri_usb_start_xmit_msg, memcpy, cpu_to_le32, UDT1CRI_TX_IS_RTR,
    udt1cri_usb_msg_can.dlc]
  split <;> rfl

/-- What decoding gives for the message built for a frame: the flags byte is
the stack byte at its offset, the length and the first `can_dlc` data bytes are
those of the frame, and `can_id` is that of the frame with `CAN_EFF_FLAG` added
when bit `0x01` of that stack byte is set and `CAN_RTR_FLAG` added when bit
`0x02` is set. -/
theorem round_trip_up_to_flags (cf cf0 : can_frame) (stack : List Nat)
    (hdlc : cf.can_dlc ≤ 8) (hid : cf.can_id < 2 ^ 32) (hdata : cf.data.length = 8)
    (hstack : stack.length = 20) :
    udt1cri_usb_msg_can.flags (udt1cri_usb_start_xmit_msg cf stack) = stack.getD 2 0
    ∧ (udt1cri_usb_process_can_frame (udt1cri_usb_start_xmit_msg cf stack) cf0).can_id
      = (cf.can_id ||| (if stack.getD 2 0 &&& FLAG_CAN_EID ≠ 0 then CAN_EFF_FLAG else 0))
          ||| (if stack.getD 2 0 &&& FLAG_CAN_RTR ≠ 0 then CAN_RTR_FLAG else 0)
    ∧ (udt1cri_usb_process_can_frame (udt1cri_usb_start_xmit_msg cf stack) cf0).can_dlc
        = cf.can_dlc
    ∧ (udt1cri_usb_process_can_frame (udt1cri_usb_start_xmit_msg cf stack) cf0).data.take
        cf.can_dlc = cf.data.take cf.can_dlc := by
  obtain ⟨id, dlc, data⟩ := cf
  obtain ⟨b0, b1, b2, b3, b4, b5, b6, b7, b8, b9, b10, b11, b12, b13, b14, b15, b16, b17, b18,
    b19, rfl⟩ := list_of_length_20 stack hstack
  obtain ⟨d0, d1, d2, d3, d4, d5, d6, d7, rfl⟩ := list_of_length_8 data hdata
  simp only at hdlc hid
  rw [start_xmit_msg_bytes]
  have hd : (if id &&& UDT1CRI_CAN_RTR_MASK ≠ 0 then (dlc % 256 ||| UDT1CRI_DLC_RTR_MASK) % 256
      else dlc % 256) &&& UDT1CRI_DLC_MASK = dlc := by
    split <;> (interval_cases dlc <;> rfl)
  have hle : id % 256 + 256 * (id / 256 % 256) + 65536 * (id / 65536 % 256)
      + 16777216 * (id / 16777216 % 256) = id := by omega
  simp only [udt1cri_usb_process_can_frame, udt1cri_usb_msg_can.flags, udt1cri_usb_msg_can.eid,
    udt1cri_usb_msg_can.dlc, udt1cri_usb_msg_can.data, le32_to_cpu, memcpy,
    List.getD_cons_zero, List.getD_cons_succ, List.drop_succ_cons, List.drop_zero,
    List.take_succ_cons, List.take_zero, hd, hle, true_and]
  clear hd
  refine ⟨?_, ?_⟩
  · by_cases h1 : b2 &&& FLAG_CAN_EID = 0 <;> by_cases h2 : b2 &&& FLAG_CAN_RTR = 0 <;>
      simp [h1, h2]
  · by_cases h1 : b2 &&& FLAG_CAN_EID = 0 <;> by_cases h2 : b2 &&& FLAG_CAN_RTR = 0 <;>
      simp [h1, h2] <;> interval_cases dlc <;> simp

/-- C1. The round trip breaks on the flags byte, which `udt1cri_usb_start_xmit`
never writes. The standard data frame `0x123` of length 3, built while the
stack byte at the offset of `flags` holds `0x01`, decodes as the extended frame
`0x80000123`; built while that byte holds `0x02` it decodes as the remote
request `0x40000123`; built while it holds `0x00` it decodes as sent. The
length and the three data bytes come back unchanged each time. -/
theorem round_trip_breaks_on_flags :
    sample_std_frame.can_dlc ≤ 8 ∧ sample_std_frame.can_id &&& CAN_EFF_FLAG = 0
    ∧ sample_std_frame.can_id &&& CAN_RTR_FLAG = 0
    ∧ udt1cri_usb_process_can_frame
        (udt1cri_usb_start_xmit_msg sample_std_frame dirty_stack) zero_frame
      = { can_id := 0x80000123, can_dlc := 3, data := [1, 2, 3, 0, 0, 0, 0, 0] }
    ∧ (udt1cri_usb_process_can_frame
        (udt1cri_usb_start_xmit_msg sample_std_frame dirty_stack) zero_frame).can_id
        &&& CAN_EFF_FLAG ≠ 0
    ∧ udt1cri_usb_process_can_frame
        (udt1cri_usb_start_xmit_msg sample_std_frame rtr_stack) zero_frame
      = { can_id := 0x40000123, can_dlc := 3, data := [1, 2, 3, 0, 0, 0, 0, 0] }
    ∧ (udt1cri_usb_process_can_frame
        (udt1cri_usb_start_xmit_msg sample_std_frame rtr_stack) zero_frame).can_id
        &&& CAN_RTR_FLAG ≠ 0
    ∧ udt1cri_usb_process_can_frame
        (udt1cri_usb_start_xmit_msg sample_std_frame zero_stack) zero_frame
      = { can_id := 0x123, can_dlc := 3, data := [1, 2, 3, 0, 0, 0, 0, 0] } := by
  decide

/-! ## Receive-side frame decoding -/

theorem and_rtr_flag_ne_zero (x : Nat) : x &&& CAN_RTR_FLAG ≠ 0 ↔ x.testBit 30 = true := by
  have h : CAN_RTR_FLAG = 2 ^ 30 := by decide
  rw [h, Nat.and_two_pow]
  cases x.testBit 30 <;> simp

/-- C9 at the failing input: a receive message whose DLC byte is `0x0F` gives a
frame with `can_dlc = 15`, and the copy of 15 bytes takes the 8 data bytes of
the message and the 7 bytes that follow it and writes 15 bytes into the 8-byte
data array of the frame. -/
theorem process_can_dlc_unbounded :
    (udt1cri_usb_process_can_frame overlong_rx_buffer zero_frame).can_dlc = 15
    ∧ ¬ (udt1cri_usb_process_can_frame overlong_rx_buffer zero_frame).can_dlc ≤ 8
    ∧ (udt1cri_usb_process_can_frame overlong_rx_buffer zero_frame).data
        = [1, 2, 3, 4, 5, 6, 7, 8, 0xAA, 0xAA, 0xAA, 0xAA, 0xAA, 0xAA, 0xAA]
    ∧ ¬ (udt1cri_usb_process_can_frame overlong_rx_buffer zero_frame).data.length ≤ 8 := by
  decide

/-- C10, as stated, fails: a receive message with bit `0x40` of the DLC byte
set, flags byte 0 and identifier 0 gives a frame whose RTR flag is clear. -/
theorem process_can_ignores_dlc_rtr_bit :
    udt1cri_usb_msg_can.dlc dlc_rtr_msg &&& UDT1CRI_DLC_RTR_MASK ≠ 0
    ∧ (udt1cri_usb_process_can_frame dlc_rtr_msg zero_frame).can_id &&& CAN_RTR_FLAG = 0 := by
  decide

/-- C10, amended. For every receive message the frame built by
`udt1cri_usb_process_can` has its RTR flag set exactly when bit 30 of the
identifier field is set or bit `0x02` of the flags byte is set; the two are
OR-ed, and the DLC byte has no part in it. -/
theorem process_can_rtr_flag (msg : List Nat) (cf0 : can_frame) :
    (udt1cri_usb_process_can_frame msg cf0).can_id &&& CAN_RTR_FLAG ≠ 0
      ↔ (le32_to_cpu (udt1cri_usb_msg_can.eid msg) &&& CAN_RTR_FLAG ≠ 0
          ∨ udt1cri_usb_msg_can.flags msg &&& FLAG_CAN_RTR ≠ 0) := by
  have hrtr : CAN_RTR_FLAG.testBit 30 = true := by decide
  have heff : CAN_EFF_FLAG.testBit 30 = false := by decide
  simp only [and_rtr_flag_ne_zero, udt1cri_usb_process_can_frame]
  by_cases h1 : udt1cri_usb_msg_can.flags msg &&& FLAG_CAN_EID = 0 <;>
  by_cases h2 : udt1cri_usb_msg_can.flags msg &&& FLAG_CAN_RTR = 0 <;>
  simp [h1, h2, hrtr, heff]

/-! ## Transmit-context pool: the acquire loop -/

theorem get_free_ctx_loop_some (t : List udt1cri_usb_ctx) (n i k : Nat)
    (t2 : List udt1cri_usb_ctx) (h : udt1cri_usb_get_free_ctx_loop t n i = (some k, t2)) :
    i ≤ k ∧ k < i + n ∧ (t.getD k default).ndx = UDT1CRI_CTX_FREE
    ∧ (∀ j, i ≤ j → j < k → (t.getD j default).ndx ≠ UDT1CRI_CTX_FREE)
    ∧ t2 = t.set k { t.getD k default with ndx := k, priv := true } := by
  induction n generalizing i with
  | zero => simp [udt1cri_usb_get_free_ctx_loop] at h
  | succ n ih =>
    unfold udt1cri_usb_get_free_ctx_loop at h
    split at h
    · next hfree =>
      simp only [Prod.mk.injEq, Option.some.injEq] at h
      obtain ⟨rfl, rfl⟩ := h
      exact ⟨le_refl _, by omega, hfree, fun j h1 h2 => absurd h1 (by omega), rfl⟩
    · next hbusy =>
      obtain ⟨h1, h2, h3, h4, h5⟩ := ih (i + 1) h
      refine ⟨by omega, by omega, h3, ?_, h5⟩
      intro j hj1 hj2
      by_cases hji : j = i
      · subst hji; exact hbusy
      · exact h4 j (by omega) hj2

theorem get_free_ctx_loop_none (t : List udt1cri_usb_ctx) (n i : Nat)
    (t2 : List udt1cri_usb_ctx) (h : udt1cri_usb_get_free_ctx_loop t n i = (none, t2)) :
    t2 = t ∧ ∀ j, i ≤ j → j < i + n → (t.getD j default).ndx ≠ UDT1CRI_CTX_FREE := by
  induction n generalizing i with
  | zero =>
    simp only [udt1cri_usb_get_free_ctx_loop, Prod.mk.injEq, true_and] at h
    exact ⟨h.symm, fun j h1 h2 => absurd h1 (by omega)⟩
  | succ n ih =>
    unfold udt1cri_usb_get_free_ctx_loop at h
    split at h
    · simp at h
    · next hbusy =>
      obtain ⟨h1, h2⟩ := ih (i + 1) h
      refine ⟨h1, ?_⟩
      intro j hj1 hj2
      by_cases hji : j = i
      · subst hji; exact hbusy
      · exact h2 j (by omega) (by omega)

/-- The loop finds nothing when no slot in its range is free. -/
theorem get_free_ctx_loop_all_busy (t : List udt1cri_usb_ctx) (n i : Nat)
    (h : ∀ j, i ≤ j → j < i + n → (t.getD j default).ndx ≠ UDT1CRI_CTX_FREE) :
    udt1cri_usb_get_free_ctx_loop t n i = (none, t) := by
  induction n generalizing i with
  | zero => rfl
  | succ n ih =>
    unfold udt1cri_usb_get_free_ctx_loop
    rw [if_neg (h i (le_refl _) (by omega))]
    exact ih (i + 1) (fun j h1 h2 => h j (by omega) (by omega))

/-- The loop returns the first free slot of its range. -/
theorem get_free_ctx_loop_first_free (t : List udt1cri_usb_ctx) (n i k : Nat)
    (hik : i ≤ k) (hkn : k < i + n) (hfree : (t.getD k default).ndx = UDT1CRI_CTX_FREE)
    (hbusy : ∀ j, i ≤ j → j < k → (t.getD j default).ndx ≠ UDT1CRI_CTX_FREE) :
    udt1cri_usb_get_free_ctx_loop t n i
      = (some k, t.set k { t.getD k default with ndx := k, priv := true }) := by
  induction n generalizing i with
  | zero => omega
  | succ n ih =>
    unfold udt1cri_usb_get_free_ctx_loop
    by_cases hki : k = i
    · subst hki; rw [if_pos hfree]
    · rw [if_neg (hbusy i (le_refl _) (by omega))]
      exact ih (i + 1) (by omega) (by omega) (fun j h1 h2 => hbusy j (by omega) h2)

/-! ## Transmit-context pool: table lemmas -/

theorem getD_set_self {α : Type} (t : List α) (i : Nat) (c d : α) (h : i < t.length) :
    (t.set i c).getD i d = c := by
  simp [List.getD_eq_getElem?_getD, List.getElem?_set, h]

theorem getD_set_ne {α : Type} (t : List α) (i j : Nat) (c d : α) (h : i ≠ j) :
    (t.set i c).getD j d = t.getD j d := by
  simp [List.getD_eq_getElem?_getD, List.getElem?_set, h]

theorem getD_mem {α : Type} (t : List α) (j : Nat) (d : α) (h : j < t.length) :
    t.getD j d ∈ t := by
  rw [List.getD_eq_getElem?_getD, List.getElem?_eq_getElem h]
  exact List.getElem_mem h

theorem init_ctx_loop_length (n i : Nat) (t : List udt1cri_usb_ctx) :
    (udt1cri_init_ctx_loop n i t).length = t.length := by
  induction n generalizing i t with
  | zero => rfl
  | succ n ih => simp [udt1cri_init_ctx_loop, ih]

theorem init_ctx_loop_getD (n i : Nat) (t : List udt1cri_usb_ctx) (j : Nat) :
    (udt1cri_init_ctx_loop n i t).getD j default
      = if i ≤ j ∧ j < i + n ∧ j < t.length
        then { t.getD j default with ndx := UDT1CRI_CTX_FREE } else t.getD j default := by
  induction n generalizing i t with
  | zero =>
    have : ¬ (i ≤ j ∧ j < i + 0 ∧ j < t.length) := by omega
    simp only [udt1cri_init_ctx_loop, if_neg this]
  | succ n ih =>
    unfold udt1cri_init_ctx_loop
    rw [ih, List.length_set]
    by_cases hji : j = i
    · subst hji
      have h1 : ¬ (j + 1 ≤ j ∧ j < j + 1 + n ∧ j < t.length) := by omega
      rw [if_neg h1]
      by_cases hlen : j < t.length
      · have h2 : j ≤ j ∧ j < j + (n + 1) ∧ j < t.length := ⟨le_refl _, by omega, hlen⟩
        rw [if_pos h2, getD_set_self _ _ _ _ hlen]
      · have h2 : ¬ (j ≤ j ∧ j < j + (n + 1) ∧ j < t.length) := fun h => hlen h.2.2
        rw [if_neg h2, List.set_eq_of_length_le (by omega)]
    · rw [getD_set_ne _ _ _ _ _ (Ne.symm hji)]
      by_cases hc : i + 1 ≤ j ∧ j < i + 1 + n ∧ j < t.length
      · have h2 : i ≤ j ∧ j < i + (n + 1) ∧ j < t.length := ⟨by omega, by omega, hc.2.2⟩
        rw [if_pos hc, if_pos h2]
      · have h2 : ¬ (i ≤ j ∧ j < i + (n + 1) ∧ j < t.length) := by
          intro h; apply hc; exact ⟨by omega, by omega, h.2.2⟩
        rw [if_neg hc, if_neg h2]

theorem get_free_ctx_loop_length (t : List udt1cri_usb_ctx) (n i : Nat) :
    (udt1cri_usb_get_free_ctx_loop t n i).2.length = t.length := by
  rcases h : udt1cri_usb_get_free_ctx_loop t n i with ⟨_ | k, t2⟩
  · rw [(get_free_ctx_loop_none t n i t2 h).1]
  · rw [(get_free_ctx_loop_some t n i k t2 h).2.2.2.2, List.length_set]

theorem pool_step_length (priv : udt1cri_priv) (op : pool_op) :
    (pool_step priv op).tx_context.length = priv.tx_context.length := by
  cases op with
  | acquire => exact get_free_ctx_loop_length _ _ _
  | release ctx => simp [pool_step, udt1cri_usb_free_ctx]

theorem pool_run_length (priv : udt1cri_priv) (ops : List pool_op) :
    (pool_run priv ops).tx_context.length = priv.tx_context.length := by
  induction ops generalizing priv with
  | nil => rfl
  | cons op ops ih =>
    simp only [pool_run, List.foldl_cons] at ih ⊢
    rw [ih, pool_step_length]

theorem init_ctx_length (priv : udt1cri_priv) :
    (udt1cri_init_ctx priv).tx_context.length = priv.tx_context.length := by
  simp only [udt1cri_init_ctx, init_ctx_loop_length]

/-- With every one of the 20 slots in use an acquire returns the null pointer
and leaves the state as it was. -/
theorem get_free_ctx_full (priv : udt1cri_priv) (hlen : priv.tx_context.length = 20)
    (hfull : in_use_count priv = 20) : udt1cri_usb_get_free_ctx priv = (none, priv) := by
  have hall : ∀ c ∈ priv.tx_context, c.ndx ≠ UDT1CRI_CTX_FREE := by
    have h := (List.countP_eq_length (l := priv.tx_context)
      (p := fun c => decide (c.ndx ≠ UDT1CRI_CTX_FREE))).1 (by rw [hlen]; exact hfull)
    intro c hc
    simpa using h c hc
  have hloop := get_free_ctx_loop_all_busy priv.tx_context UDT1CRI_MAX_TX_URBS 0
    (fun j _ hj => hall _ (getD_mem _ j default (by
      rw [hlen]; simpa [UDT1CRI_MAX_TX_URBS] using hj)))
  simp only [udt1cri_usb_get_free_ctx, hloop]

/-- After `k` acquires on a freshly initialised pool the slots below `k` are in
use and the others free. -/
theorem pool_fill (priv0 : udt1cri_priv) (hlen : priv0.tx_context.length = 20) (k : Nat)
    (hk : k ≤ 20) (j : Nat) (hj : j < 20) :
    ((pool_run (udt1cri_init_ctx priv0) (List.replicate k pool_op.acquire)).tx_context.getD j
      default).ndx = if j < k then j else UDT1CRI_CTX_FREE := by
  induction k generalizing j with
  | zero =>
    simp only [List.replicate_zero, pool_run, List.foldl_nil, udt1cri_init_ctx,
      init_ctx_loop_getD, Nat.not_lt_zero, if_false]
    rw [if_pos ⟨Nat.zero_le _, by simpa [UDT1CRI_MAX_TX_URBS] using hj, by omega⟩]
  | succ k ih =>
    have hlen2 : (pool_run (udt1cri_init_ctx priv0)
        (List.replicate k pool_op.acquire)).tx_context.length = 20 := by
      rw [pool_run_length, init_ctx_length, hlen]
    have hfree := ih (by omega) k (by omega)
    rw [if_neg (lt_irrefl k)] at hfree
    have hloop := get_free_ctx_loop_first_free
      (pool_run (udt1cri_init_ctx priv0) (List.replicate k pool_op.acquire)).tx_context
      UDT1CRI_MAX_TX_URBS 0 k (Nat.zero_le _) (by simp [UDT1CRI_MAX_TX_URBS]; omega) hfree
      (fun i _ hi => by rw [ih (by omega) i (by omega), if_pos hi]; simp [UDT1CRI_CTX_FREE, UDT1CRI_MAX_TX_URBS]; omega)
    rw [List.replicate_succ', pool_run, List.foldl_append, List.foldl_cons, List.foldl_nil]
    change ((pool_step (pool_run (udt1cri_init_ctx priv0) (List.replicate k pool_op.acquire))
      pool_op.acquire).tx_context.getD j default).ndx = _
    simp only [pool_step, udt1cri_usb_get_free_ctx, hloop]
    by_cases hjk : j = k
    · subst hjk
      rw [getD_set_self _ _ _ _ (by omega), if_pos (by omega)]
    · rw [getD_set_ne _ _ _ _ _ (Ne.symm hjk), ih (by omega) j hj]
      by_cases hlt : j < k
      · rw [if_pos hlt, if_pos (by omega)]
      · rw [if_neg hlt, if_neg (by omega)]

theorem in_use_count_of_all (priv : udt1cri_priv) (hlen : priv.tx_context.length = 20)
    (h : ∀ j, j < 20 → (priv.tx_context.getD j default).ndx ≠ UDT1CRI_CTX_FREE) :
    in_use_count priv = 20 := by
  rw [in_use_count, ← hlen, List.countP_eq_length]
  intro c hc
  obtain ⟨j, hj, rfl⟩ := List.getElem_of_mem hc
  have := h j (by omega)
  rw [List.getD_eq_getElem?_getD, List.getElem?_eq_getElem hj] at this
  simpa using this

/-! ## Transmit-context pool: bound -/

/-- C2. Starting from a pool initialised by `udt1cri_init_ctx`, after every
finite sequence of acquires and releases at most 20 slots are in use, and an
acquire made while 20 slots are in use returns the null pointer and leaves the
state unchanged. On a fresh pool the first 20 acquires return the slots 0 to
19 in turn and the 21st returns the null pointer. -/
theorem pool_bound (priv0 : udt1cri_priv) (ops : List pool_op)
    (hlen : priv0.tx_context.length = 20) :
    in_use_count (pool_run (udt1cri_init_ctx priv0) ops) ≤ 20
    ∧ (in_use_count (pool_run (udt1cri_init_ctx priv0) ops) = 20 →
        udt1cri_usb_get_free_ctx (pool_run (udt1cri_init_ctx priv0) ops)
          = (none, pool_run (udt1cri_init_ctx priv0) ops))
    ∧ (∀ k, k < 20 →
        (udt1cri_usb_get_free_ctx
          (pool_run (udt1cri_init_ctx priv0) (List.replicate k pool_op.acquire))).1 = some k)
    ∧ in_use_count (pool_run (udt1cri_init_ctx priv0) (List.replicate 20 pool_op.acquire)) = 20
    ∧ udt1cri_usb_get_free_ctx
        (pool_run (udt1cri_init_ctx priv0) (List.replicate 20 pool_op.acquire))
        = (none, pool_run (udt1cri_init_ctx priv0) (List.replicate 20 pool_op.acquire)) := by
  have hl : ∀ ops, (pool_run (udt1cri_init_ctx priv0) ops).tx_context.length = 20 := by
    intro ops; rw [pool_run_length, init_ctx_length, hlen]
  have h20 : in_use_count
      (pool_run (udt1cri_init_ctx priv0) (List.replicate 20 pool_op.acquire)) = 20 := by
    apply in_use_count_of_all _ (hl _)
    intro j hj
    rw [pool_fill priv0 hlen 20 (le_refl _) j hj, if_pos hj]
    simp only [UDT1CRI_CTX_FREE, UDT1CRI_MAX_TX_URBS]
    omega
  refine ⟨?_, fun hfull => get_free_ctx_full _ (hl _) hfull, ?_, h20,
    get_free_ctx_full _ (hl _) h20⟩
  · have h := List.countP_le_length (fun c => decide (c.ndx ≠ UDT1CRI_CTX_FREE))
      (l := (pool_run (udt1cri_init_ctx priv0) ops).tx_context)
    rw [hl] at h
    exact h
  · intro k hk
    have hfree := pool_fill priv0 hlen k (by omega) k hk
    rw [if_neg (lt_irrefl k)] at hfree
    have hloop := get_free_ctx_loop_first_free
      (pool_run (udt1cri_init_ctx priv0) (List.replicate k pool_op.acquire)).tx_context
      UDT1CRI_MAX_TX_URBS 0 k (Nat.zero_le _) (by simp [UDT1CRI_MAX_TX_URBS]; omega) hfree
      (fun i _ hi => by
        rw [pool_fill priv0 hlen k (by omega) i (by omega), if_pos hi]
        simp only [UDT1CRI_CTX_FREE, UDT1CRI_MAX_TX_URBS]
        omega)
    simp only [udt1cri_usb_get_free_ctx, hloop]

/-- C2 on the pool of a probed device, after three acquires, one release and
two more acquires. -/
theorem pool_bound_witness :
    probe_priv.tx_context.length = 20
    ∧ in_use_count (pool_run (udt1cri_init_ctx probe_priv) sample_ops) ≤ 20
    ∧ udt1cri_usb_get_free_ctx
        (pool_run (udt1cri_init_ctx probe_priv) (List.replicate 20 pool_op.acquire))
        = (none, pool_run (udt1cri_init_ctx probe_priv) (List.replicate 20 pool_op.acquire)) :=
  ⟨by decide, (pool_bound probe_priv sample_ops (by decide)).1,
    (pool_bound probe_priv sample_ops (by decide)).2.2.2.2⟩

/-! ## Transmit-context pool: reuse -/

/-- C7. For every pool state and every slot `i`, after `udt1cri_usb_free_ctx`
on slot `i` the slot is free with `dlc = 0` and `can = false` and every other
slot is unchanged. A following acquire returns a slot `k ≤ i`, which is `i`
itself when no slot below `i` is free; when it is slot `i` the slot comes back
with `dlc = 0` and `can = false`, when it is another slot that slot keeps its
own `dlc` and `can`; and the outcome of the acquire is the same whatever slot
`i` held before the release. -/
theorem slot_reuse (priv : udt1cri_priv) (i : Nat) (hlen : priv.tx_context.length = 20)
    (hi : i < 20) :
    (udt1cri_usb_free_ctx priv i).tx_context.getD i default
      = { priv := false, ndx := UDT1CRI_CTX_FREE, dlc := 0, can := false }
    ∧ (∀ j, j ≠ i →
        (udt1cri_usb_free_ctx priv i).tx_context.getD j default = priv.tx_context.getD j default)
    ∧ (udt1cri_usb_free_ctx priv i).tx_context.length = 20
    ∧ (∃ k, (udt1cri_usb_get_free_ctx (udt1cri_usb_free_ctx priv i)).1 = some k ∧ k ≤ i
        ∧ ((∀ j, j < i → (priv.tx_context.getD j default).ndx ≠ UDT1CRI_CTX_FREE) → k = i)
        ∧ (k = i →
            (udt1cri_usb_get_free_ctx (udt1cri_usb_free_ctx priv i)).2.tx_context.getD k default
              = { priv := true, ndx := i, dlc := 0, can := false })
        ∧ (k ≠ i →
            ((udt1cri_usb_get_free_ctx (udt1cri_usb_free_ctx priv i)).2.tx_context.getD k
                default).dlc = (priv.tx_context.getD k default).dlc
            ∧ ((udt1cri_usb_get_free_ctx (udt1cri_usb_free_ctx priv i)).2.tx_context.getD k
                default).can = (priv.tx_context.getD k default).can))
    ∧ (∀ c, udt1cri_usb_get_free_ctx
          (udt1cri_usb_free_ctx { priv with tx_context := priv.tx_context.set i c } i)
        = udt1cri_usb_get_free_ctx (udt1cri_usb_free_ctx priv i)) := by
  have hi2 : i < priv.tx_context.length := by omega
  have hself : (udt1cri_usb_free_ctx priv i).tx_context.getD i default
      = { priv := false, ndx := UDT1CRI_CTX_FREE, dlc := 0, can := false } := by
    simp only [udt1cri_usb_free_ctx]
    exact getD_set_self _ _ _ _ hi2
  have hother : ∀ j, j ≠ i →
      (udt1cri_usb_free_ctx priv i).tx_context.getD j default
        = priv.tx_context.getD j default := by
    intro j hj
    simp only [udt1cri_usb_free_ctx]
    exact getD_set_ne _ _ _ _ _ (Ne.symm hj)
  have hlen1 : (udt1cri_usb_free_ctx priv i).tx_context.length = 20 := by
    simp only [udt1cri_usb_free_ctx, List.length_set, hlen]
  refine ⟨hself, hother, hlen1, ?_, ?_⟩
  · rcases h : udt1cri_usb_get_free_ctx_loop (udt1cri_usb_free_ctx priv i).tx_context
        UDT1CRI_MAX_TX_URBS 0 with ⟨_ | k, t2⟩
    · have hbusy := (get_free_ctx_loop_none _ _ _ _ h).2 i (Nat.zero_le _)
        (by simp only [UDT1CRI_MAX_TX_URBS]; omega)
      rw [hself] at hbusy
      exact absurd rfl hbusy
    · obtain ⟨_, _, hfree, hbelow, ht2⟩ := get_free_ctx_loop_some _ _ _ _ _ h
      have hki : k ≤ i := by
        by_contra hlt
        have := hbelow i (Nat.zero_le _) (by omega)
        rw [hself] at this
        exact this rfl
      refine ⟨k, by simp only [udt1cri_usb_get_free_ctx, h], hki, ?_, ?_, ?_⟩
      · intro hb
        by_contra hne
        have hk := hb k (by omega)
        rw [hother k hne] at hfree
        exact hk hfree
      · intro hk
        subst hk
        simp only [udt1cri_usb_get_free_ctx, h, ht2]
        rw [getD_set_self _ _ _ _ (by omega), hself]
      · intro hk
        simp only [udt1cri_usb_get_free_ctx, h, ht2]
        rw [getD_set_self _ _ _ _ (by omega), hother k hk]
        exact ⟨rfl, rfl⟩
  · intro c
    simp only [udt1cri_usb_free_ctx, List.set_set]

/-- C7 on a pool whose slot 1 carried a CAN frame of length 5. -/
theorem slot_reuse_witness :
    sample_pool_priv.tx_context.length = 20
    ∧ (udt1cri_usb_free_ctx sample_pool_priv 1).tx_context.getD 1 default
      = { priv := false, ndx := UDT1CRI_CTX_FREE, dlc := 0, can := false }
    ∧ udt1cri_usb_get_free_ctx (udt1cri_usb_free_ctx sample_pool_priv 1)
      = udt1cri_usb_get_free_ctx (udt1cri_usb_free_ctx
          { sample_pool_priv with tx_context := sample_pool_priv.tx_context.set 1 default } 1) :=
  ⟨by decide, (slot_reuse sample_pool_priv 1 (by decide) (by decide)).1,
    ((slot_reuse sample_pool_priv 1 (by decide) (by decide)).2.2.2.2 default).symm⟩

/-! ## Bit timing -/

theorem xmit_nomem_bittiming (priv : udt1cri_priv) (ctx : Nat) (skb : Option can_frame) :
    (udt1cri_usb_xmit_nomem priv ctx skb).2.bittiming = priv.bittiming := rfl

/-- Sending never touches the bit-timing record. -/
theorem xmit_bittiming (priv : udt1cri_priv) (usb_msg : List Nat) (skb : Option can_frame)
    (env : xmit_env) : (udt1cri_usb_xmit priv usb_msg skb env).2.bittiming = priv.bittiming := by
  unfold udt1cri_usb_xmit
  rcases h : udt1cri_usb_get_free_ctx priv with ⟨_ | ctx, p⟩
  · have : p.bittiming = priv.bittiming := by
      have := congrArg (fun r => r.2.bittiming) h
      simpa [udt1cri_usb_get_free_ctx] using this.symm
    simpa using this
  · have hp : p.bittiming = priv.bittiming := by
      have := congrArg (fun r => r.2.bittiming) h
      simpa [udt1cri_usb_get_free_ctx] using this.symm
    cases skb <;> simp only [can_put_echo_skb] <;> split_ifs <;>
      simp [xmit_nomem_bittiming, hp]

theorem search_foldl_none (l : List bitrate_settings) (b : Nat) (init : Option bitrate_settings) :
    l.foldl (fun settings row => if row.bt.bitrate = b then some row else settings) init = none
      ↔ init = none ∧ ∀ row ∈ l, row.bt.bitrate ≠ b := by
  induction l generalizing init with
  | nil => simp
  | cons r l ih =>
    rw [List.foldl_cons, ih]
    by_cases hr : r.bt.bitrate = b
    · simp [hr]
    · simp [hr]

/-- The search finds a row exactly when some row has the requested bitrate. -/
theorem search_isSome_iff (b : Nat) :
    (udt1cri_net_set_bittiming_search b).isSome = true
      ↔ ∃ row ∈ br_settings, row.bt.bitrate = b := by
  rw [Option.isSome_iff_ne_none, Ne, udt1cri_net_set_bittiming_search, search_foldl_none]
  simp

/-- C3. `udt1cri_net_set_bittiming` returns 0 exactly when the requested
bitrate is the `bitrate` field of some row of `br_settings`; otherwise it
returns `-EINVAL` and the only effect is the error report: the bit-timing
record is unchanged and nothing is handed to the transmit path. A request of
125000 succeeds with the row whose `brp` is 16 and a request of 125001 fails. -/
theorem set_bittiming_exact_match (priv : udt1cri_priv) (stack : List Nat) (env : xmit_env) :
    ((udt1cri_net_set_bittiming priv stack env).1 = 0
      ↔ ∃ row ∈ br_settings, row.bt.bitrate = priv.bittiming.bitrate)
    ∧ ((¬ ∃ row ∈ br_settings, row.bt.bitrate = priv.bittiming.bitrate) →
        udt1cri_net_set_bittiming priv stack env
          = (-EINVAL, { priv with
              trace := priv.trace ++ [event.err_unsupported_bitrate priv.bittiming.bitrate] }))
    ∧ (priv.bittiming.bitrate = 125000 →
        (udt1cri_net_set_bittiming priv stack env).1 = 0
        ∧ (udt1cri_net_set_bittiming priv stack env).2.bittiming
          = { bitrate := 125000, sample_point := 600, tq := 400, prop_seg := 3,
              phase_seg1 := 8, phase_seg2 := 8, sjw := 1, brp := 16 })
    ∧ (priv.bittiming.bitrate = 125001 →
        (udt1cri_net_set_bittiming priv stack env).1 = -EINVAL) := by
  have hiff := search_isSome_iff priv.bittiming.bitrate
  refine ⟨?_, ?_, ?_, ?_⟩
  · rw [← hiff]
    unfold udt1cri_net_set_bittiming
    cases udt1cri_net_set_bittiming_search priv.bittiming.bitrate with
    | none => simp [EINVAL]
    | some s => simp
  · intro hno
    rw [← hiff] at hno
    unfold udt1cri_net_set_bittiming
    cases h : udt1cri_net_set_bittiming_search priv.bittiming.bitrate with
    | none => rfl
    | some s => simp [h] at hno
  · intro h
    have hs : udt1cri_net_set_bittiming_search 125000
        = some { bt := { bitrate := 125000, sample_point := 600, tq := 400, prop_seg := 3,
                         phase_seg1 := 8, phase_seg2 := 8, sjw := 1, brp := 16 },
                 kbps := 125 } := by decide
    unfold udt1cri_net_set_bittiming
    rw [h, hs]
    refine ⟨rfl, ?_⟩
    simp only [udt1cri_usb_xmit_change_bitrate, udt1cri_usb_xmit_cmd, xmit_bittiming]
    decide
  · intro h
    have hs : udt1cri_net_set_bittiming_search 125001 = none := by decide
    unfold udt1cri_net_set_bittiming
    rw [h, hs]

theorem search_row : ∀ row ∈ br_settings,
    udt1cri_net_set_bittiming_search row.bt.bitrate = some row := by
  decide

theorem effective_row : ∀ row ∈ br_settings,
    1000000000 / (((row.bt.sjw + row.bt.prop_seg + row.bt.phase_seg1 + row.bt.phase_seg2)
        * row.bt.tq) % 2 ^ 32)
      = if row.bt.bitrate = 19940 then 20000 else row.bt.bitrate := by
  decide

theorem kbps_bytes_row : ∀ row ∈ br_settings,
    ((0xff00 &&& row.kbps) >>> 8) % 256 = row.kbps / 256
    ∧ (0xff &&& row.kbps) % 256 = row.kbps % 256 := by
  decide

/-- A control command sent with a free slot `k`, both allocations succeeding and
`usb_submit_urb` returning 0 adds one submitted write to the trace. -/
theorem xmit_cmd_trace_ok (priv : udt1cri_priv) (usb_msg : List Nat) (k : Nat)
    (h : (udt1cri_usb_get_free_ctx priv).1 = some k) :
    (udt1cri_usb_xmit_cmd priv usb_msg ok_env).trace
      = priv.trace ++ [event.usb_submit_write_urb k
          (usb_msg.take UDT1CRI_USB_TX_BUFF_SIZE) 0] := by
  unfold udt1cri_usb_xmit_cmd udt1cri_usb_xmit
  rcases hg : udt1cri_usb_get_free_ctx priv with ⟨_ | ctx, p⟩
  · rw [hg] at h; simp at h
  · rw [hg] at h
    simp only [Option.some.injEq] at h
    subst h
    have hp : p.trace = priv.trace := by
      have := congrArg (fun r => r.2.trace) hg
      simpa [udt1cri_usb_get_free_ctx] using this.symm
    simp [ok_env, hp]

/-! ## Receive dispatcher -/

/-- C8. For every message whose tag is none of `0xE3`, `0xF5`, `0xF7`, `0xFF`,
`0xE2` (tag `0x00` for one), `udt1cri_usb_process_rx` returns with the state
unchanged but for one warning naming the tag: error counters, termination
state, first-pass flags and statistics are as before and no frame is
forwarded. For the tags `0xFF` and `0xE2` the state is unchanged and nothing is
reported. -/
theorem process_rx_unknown_tag (priv : udt1cri_priv) (msg : List Nat)
    (skb : Option can_frame) :
    (udt1cri_usb_msg_can.cmd_id msg ≠ 0xE3 ∧ udt1cri_usb_msg_can.cmd_id msg ≠ 0xF5
      ∧ udt1cri_usb_msg_can.cmd_id msg ≠ 0xF7 ∧ udt1cri_usb_msg_can.cmd_id msg ≠ 0xFF
      ∧ udt1cri_usb_msg_can.cmd_id msg ≠ 0xE2 →
      udt1cri_usb_process_rx priv msg skb
        = { priv with trace := priv.trace
              ++ [event.warn_unsupported_msg (udt1cri_usb_msg_can.cmd_id msg)] })
    ∧ (udt1cri_usb_msg_can.cmd_id msg = 0xFF ∨ udt1cri_usb_msg_can.cmd_id msg = 0xE2 →
      udt1cri_usb_process_rx priv msg skb = priv)
    ∧ udt1cri_usb_process_rx priv unknown_msg skb
        = { priv with trace := priv.trace ++ [event.warn_unsupported_msg 0x00] } := by
  refine ⟨?_, ?_, ?_⟩
  · rintro ⟨h1, h2, h3, h4, h5⟩
    simp only [udt1cri_usb_process_rx, UDT1CRI_CMD_I_AM_ALIVE_FROM_CAN,
      UDT1CRI_CMD_I_AM_ALIVE_FROM_USB, UDT1CRI_CMD_RECEIVE_MESSAGE, UDT1CRI_CMD_NOTHING_TO_SEND,
      UDT1CRI_CMD_TRANSMIT_MESSAGE_RSP, h1, h2, h3, h4, h5, if_false]
  · rintro (h | h) <;>
    simp [udt1cri_usb_process_rx, UDT1CRI_CMD_I_AM_ALIVE_FROM_CAN,
      UDT1CRI_CMD_I_AM_ALIVE_FROM_USB, UDT1CRI_CMD_RECEIVE_MESSAGE, UDT1CRI_CMD_NOTHING_TO_SEND,
      UDT1CRI_CMD_TRANSMIT_MESSAGE_RSP, h]
  · rfl

/-! ## Keep-alive latch -/

/-- One step of the dispatcher: the USB-side report is added exactly when the
flag is set and the message is a USB keep-alive, and the flag stays set exactly
when it was set and the message is no USB keep-alive. -/
theorem process_rx_usb_step (p : udt1cri_priv) (m : List Nat) (skb : Option can_frame) :
    usb_version_reports (udt1cri_usb_process_rx p m skb).trace
      = usb_version_reports p.trace
        ++ (if p.usb_ka_first_pass = true
              ∧ udt1cri_usb_msg_can.cmd_id m = UDT1CRI_CMD_I_AM_ALIVE_FROM_USB
            then [event.info_usb_version (udt1cri_usb_msg_ka_usb.soft_ver_major m)
                    (udt1cri_usb_msg_ka_usb.soft_ver_minor m)] else [])
    ∧ (udt1cri_usb_process_rx p m skb).usb_ka_first_pass
      = (p.usb_ka_first_pass
          && !decide (udt1cri_usb_msg_can.cmd_id m = UDT1CRI_CMD_I_AM_ALIVE_FROM_USB)) := by
  unfold udt1cri_usb_process_rx
  simp only [UDT1CRI_CMD_I_AM_ALIVE_FROM_CAN, UDT1CRI_CMD_I_AM_ALIVE_FROM_USB,
    UDT1CRI_CMD_RECEIVE_MESSAGE, UDT1CRI_CMD_NOTHING_TO_SEND, UDT1CRI_CMD_TRANSMIT_MESSAGE_RSP]
  by_cases h1 : udt1cri_usb_msg_can.cmd_id m = 245
  · cases hc : p.can_ka_first_pass <;>
      simp [udt1cri_usb_process_ka_can, usb_version_reports, List.filter_append, hc, h1]
  by_cases h2 : udt1cri_usb_msg_can.cmd_id m = 247
  · cases hu : p.usb_ka_first_pass <;>
      simp [udt1cri_usb_process_ka_usb, usb_version_reports, List.filter_append, hu, h2]
  by_cases h3 : udt1cri_usb_msg_can.cmd_id m = 227
  · cases skb <;>
      simp [udt1cri_usb_process_can, usb_version_reports, List.filter_append, h3]
  by_cases h4 : udt1cri_usb_msg_can.cmd_id m = 255
  · simp [h4]
  by_cases h5 : udt1cri_usb_msg_can.cmd_id m = 226
  · simp [h5]
  simp [usb_version_reports, List.filter_append, h1, h2, h3, h4, h5]

/-- One step of the dispatcher, CAN side. -/
theorem process_rx_can_step (p : udt1cri_priv) (m : List Nat) (skb : Option can_frame) :
    can_version_reports (udt1cri_usb_process_rx p m skb).trace
      = can_version_reports p.trace
        ++ (if p.can_ka_first_pass = true
              ∧ udt1cri_usb_msg_can.cmd_id m = UDT1CRI_CMD_I_AM_ALIVE_FROM_CAN
            then [event.info_can_version (udt1cri_usb_msg_ka_can.soft_ver_major m)
                    (udt1cri_usb_msg_ka_can.soft_ver_minor m)] else [])
    ∧ (udt1cri_usb_process_rx p m skb).can_ka_first_pass
      = (p.can_ka_first_pass
          && !decide (udt1cri_usb_msg_can.cmd_id m = UDT1CRI_CMD_I_AM_ALIVE_FROM_CAN)) := by
  unfold udt1cri_usb_process_rx
  simp only [UDT1CRI_CMD_I_AM_ALIVE_FROM_CAN, UDT1CRI_CMD_I_AM_ALIVE_FROM_USB,
    UDT1CRI_CMD_RECEIVE_MESSAGE, UDT1CRI_CMD_NOTHING_TO_SEND, UDT1CRI_CMD_TRANSMIT_MESSAGE_RSP]
  by_cases h1 : udt1cri_usb_msg_can.cmd_id m = 245
  · cases hc : p.can_ka_first_pass <;>
      simp [udt1cri_usb_process_ka_can, can_version_reports, List.filter_append, hc, h1]
  by_cases h2 : udt1cri_usb_msg_can.cmd_id m = 247
  · cases hu : p.usb_ka_first_pass <;>
      simp [udt1cri_usb_process_ka_usb, can_version_reports, List.filter_append, hu, h2]
  by_cases h3 : udt1cri_usb_msg_can.cmd_id m = 227
  · cases skb <;>
      simp [udt1cri_usb_process_can, can_version_reports, List.filter_append, h3]
  by_cases h4 : udt1cri_usb_msg_can.cmd_id m = 255
  · simp [h4]
  by_cases h5 : udt1cri_usb_msg_can.cmd_id m = 226
  · simp [h5]
  simp [can_version_reports, List.filter_append, h1, h2, h3, h4, h5]

theorem process_rx_all_usb (p : udt1cri_priv) (msgs : List (List Nat × Option can_frame)) :
    usb_version_reports (process_rx_all p msgs).trace
      = usb_version_reports p.trace
        ++ (if p.usb_ka_first_pass = true then
              ((msgs.find? (fun m => decide
                  (udt1cri_usb_msg_can.cmd_id m.1 = UDT1CRI_CMD_I_AM_ALIVE_FROM_USB))).map
                (fun m => event.info_usb_version (udt1cri_usb_msg_ka_usb.soft_ver_major m.1)
                  (udt1cri_usb_msg_ka_usb.soft_ver_minor m.1))).toList
            else []) := by
  induction msgs generalizing p with
  | nil => simp [process_rx_all]
  | cons m rest ih =>
    have hstep := process_rx_usb_step p m.1 m.2
    have hcons : process_rx_all p (m :: rest)
        = process_rx_all (udt1cri_usb_process_rx p m.1 m.2) rest := rfl
    rw [hcons, ih, hstep.1, hstep.2]
    by_cases hm : udt1cri_usb_msg_can.cmd_id m.1 = UDT1CRI_CMD_I_AM_ALIVE_FROM_USB
    · cases hu : p.usb_ka_first_pass <;> simp [hm, List.find?_cons]
    · cases hu : p.usb_ka_first_pass <;> simp [hm, List.find?_cons]

theorem process_rx_all_can (p : udt1cri_priv) (msgs : List (List Nat × Option can_frame)) :
    can_version_reports (process_rx_all p msgs).trace
      = can_version_reports p.trace
        ++ (if p.can_ka_first_pass = true then
              ((msgs.find? (fun m => decide
                  (udt1cri_usb_msg_can.cmd_id m.1 = UDT1CRI_CMD_I_AM_ALIVE_FROM_CAN))).map
                (fun m => event.info_can_version (udt1cri_usb_msg_ka_can.soft_ver_major m.1)
                  (udt1cri_usb_msg_ka_can.soft_ver_minor m.1))).toList
            else []) := by
  induction msgs generalizing p with
  | nil => simp [process_rx_all]
  | cons m rest ih =>
    have hstep := process_rx_can_step p m.1 m.2
    have hcons : process_rx_all p (m :: rest)
        = process_rx_all (udt1cri_usb_process_rx p m.1 m.2) rest := rfl
    rw [hcons, ih, hstep.1, hstep.2]
    by_cases hm : udt1cri_usb_msg_can.cmd_id m.1 = UDT1CRI_CMD_I_AM_ALIVE_FROM_CAN
    · cases hu : p.can_ka_first_pass <;> simp [hm, List.find?_cons]
    · cases hu : p.can_ka_first_pass <;> simp [hm, List.find?_cons]

/-- C6. Starting with both first-pass flags set, as `udt1cri_usb_probe` sets
them, for every sequence of inbound messages the USB-side firmware-version
reports added to the trace are exactly one, carrying the version of the first
USB keep-alive of the sequence, when the sequence has a USB keep-alive, and
none otherwise; likewise the CAN-side reports for CAN keep-alives. And no step
of the dispatcher sets a first-pass flag again once it is clear. -/
theorem keep_alive_latch (priv : udt1cri_priv) (msgs : List (List Nat × Option can_frame))
    (husb : priv.usb_ka_first_pass = true) (hcan : priv.can_ka_first_pass = true) :
    usb_version_reports (process_rx_all priv msgs).trace
      = usb_version_reports priv.trace
        ++ ((msgs.find? (fun m => decide
              (udt1cri_usb_msg_can.cmd_id m.1 = UDT1CRI_CMD_I_AM_ALIVE_FROM_USB))).map
            (fun m => event.info_usb_version (udt1cri_usb_msg_ka_usb.soft_ver_major m.1)
              (udt1cri_usb_msg_ka_usb.soft_ver_minor m.1))).toList
    ∧ can_version_reports (process_rx_all priv msgs).trace
      = can_version_reports priv.trace
        ++ ((msgs.find? (fun m => decide
              (udt1cri_usb_msg_can.cmd_id m.1 = UDT1CRI_CMD_I_AM_ALIVE_FROM_CAN))).map
            (fun m => event.info_can_version (udt1cri_usb_msg_ka_can.soft_ver_major m.1)
              (udt1cri_usb_msg_ka_can.soft_ver_minor m.1))).toList
    ∧ (∀ (p : udt1cri_priv) (m : List Nat) (skb : Option can_frame),
        p.usb_ka_first_pass = false →
        (udt1cri_usb_process_rx p m skb).usb_ka_first_pass = false)
    ∧ (∀ (p : udt1cri_priv) (m : List Nat) (skb : Option can_frame),
        p.can_ka_first_pass = false →
        (udt1cri_usb_process_rx p m skb).can_ka_first_pass = false) := by
  refine ⟨?_, ?_, ?_, ?_⟩
  · rw [process_rx_all_usb, if_pos husb]
  · rw [process_rx_all_can, if_pos hcan]
  · intro p m skb hp
    rw [(process_rx_usb_step p m skb).2, hp, Bool.false_and]
  · intro p m skb hp
    rw [(process_rx_can_step p m skb).2, hp, Bool.false_and]

/-- C6 on a probed device and a stream with two USB keep-alives (versions 1.2
then 1.3) and one CAN keep-alive (version 2.5): one report each, of 1.2 and 2.5. -/
theorem keep_alive_latch_witness :
    probe_priv.usb_ka_first_pass = true ∧ probe_priv.can_ka_first_pass = true
    ∧ usb_version_reports (process_rx_all probe_priv sample_stream).trace
      = [event.info_usb_version 1 2]
    ∧ can_version_reports (process_rx_all probe_priv sample_stream).trace
      = [event.info_can_version 2 5] :=
  ⟨rfl, rfl, (keep_alive_latch probe_priv sample_stream rfl rfl).1,
    (keep_alive_latch probe_priv sample_stream rfl rfl).2.1⟩

/-! ## Read completion -/

/-- The loop of the read callback, started at `pos` with enough turns left,
dispatches the messages at `pos`, `pos + 20`, ... that end at or before
`actual_length`, in order, and reports a format error when bytes are left. -/
theorem read_loop_from (urb : read_urb) (skbs : Nat → Option can_frame) (n pos : Nat)
    (priv : udt1cri_priv) (hpos : pos ≤ urb.actual_length)
    (hn : urb.actual_length - pos ≤ 20 * n) :
    udt1cri_usb_read_loop urb skbs n pos priv
      = (if (urb.actual_length - pos) % 20 = 0 then id
          else fun p => { p with trace := p.trace ++ [event.err_format] })
        ((List.range ((urb.actual_length - pos) / 20)).foldl
          (fun p k => udt1cri_usb_process_rx p (urb.transfer_buffer.drop (pos + 20 * k))
            (skbs (pos + 20 * k))) priv) := by
  induction n generalizing pos priv with
  | zero =>
    have h0 : urb.actual_length - pos = 0 := by omega
    simp [udt1cri_usb_read_loop, h0]
  | succ n ih =>
    unfold udt1cri_usb_read_loop
    by_cases h1 : pos < urb.actual_length
    · rw [if_pos h1]
      by_cases h2 : pos + UDT1CRI_USB_TX_BUFF_SIZE > urb.actual_length
      · rw [if_pos h2]
        simp only [UDT1CRI_USB_TX_BUFF_SIZE] at h2
        have h3 : (urb.actual_length - pos) / 20 = 0 := by omega
        have h4 : ¬ (urb.actual_length - pos) % 20 = 0 := by omega
        simp [h3, h4]
      · rw [if_neg h2]
        simp only [UDT1CRI_USB_TX_BUFF_SIZE] at h2 ⊢
        rw [ih (pos + 20) _ (by omega) (by omega)]
        have h3 : (urb.actual_length - pos) / 20 = (urb.actual_length - (pos + 20)) / 20 + 1 := by
          omega
        have h4 : (urb.actual_length - pos) % 20 = (urb.actual_length - (pos + 20)) % 20 := by
          omega
        rw [h3, h4, List.range_succ_eq_map, List.foldl_cons, List.foldl_map]
        have h5 : ∀ k, pos + 20 * (k + 1) = pos + 20 + 20 * k := by intro k; omega
        simp only [Nat.mul_zero, Nat.add_zero, h5]
    · rw [if_neg h1]
      have h0 : urb.actual_length - pos = 0 := by omega
      simp [h0]

/-- The read callback on a successful completion of a present device: the
`actual_length / 20` messages at the offsets `20 * k` go to the dispatcher in
order, a format error is reported when `actual_length` is no multiple of 20,
and the URB is resubmitted. -/
theorem read_bulk_callback_chunks (priv : udt1cri_priv) (urb : read_urb)
    (skbs : Nat → Option can_frame) (retval : Int) (hp : priv.present = true)
    (hs : urb.status = 0) :
    udt1cri_usb_read_bulk_callback priv urb skbs retval
      = udt1cri_usb_read_resubmit
          ((if urb.actual_length % 20 = 0 then id
              else fun p => { p with trace := p.trace ++ [event.err_format] })
            (process_rx_all priv (rx_chunks urb skbs))) retval := by
  unfold udt1cri_usb_read_bulk_callback
  simp only [hp, hs, Bool.not_true, Bool.false_eq_true, if_false, if_true]
  rw [read_loop_from urb skbs urb.actual_length 0 priv (Nat.zero_le _) (by omega)]
  simp only [Nat.sub_zero, Nat.zero_add, process_rx_all, rx_chunks, List.foldl_map,
    UDT1CRI_USB_TX_BUFF_SIZE]

/-- C5 at the failing input. Two completions of 20 bytes agree on the bytes
below `actual_length` and differ only past it, and the frames the callback
forwards differ: the one message has tag `0xE3` and DLC byte `0x0F`, so its
handler copies 15 bytes from message offset 12, which are the buffer offsets 12
to 26, and the bytes at offsets 20 to 26 lie at or past `actual_length`. -/
theorem read_callback_reads_past_length :
    overlong_urb.actual_length = 20 ∧ overlong_urb2.actual_length = 20
    ∧ overlong_urb.transfer_buffer.take 20 = overlong_urb2.transfer_buffer.take 20
    ∧ (udt1cri_usb_read_bulk_callback probe_priv overlong_urb (fun _ => some zero_frame) 0).trace
      = [event.netif_rx
          ⟨0, 15, [1, 2, 3, 4, 5, 6, 7, 8, 0xAA, 0xAA, 0xAA, 0xAA, 0xAA, 0xAA, 0xAA]⟩,
         event.submit_read_urb]
    ∧ (udt1cri_usb_read_bulk_callback probe_priv overlong_urb2 (fun _ => some zero_frame) 0).trace
      = [event.netif_rx
          ⟨0, 15, [1, 2, 3, 4, 5, 6, 7, 8, 0x55, 0x55, 0x55, 0x55, 0x55, 0x55, 0x55]⟩,
         event.submit_read_urb] := by
  decide

/-- A completion of 30 bytes, one full CAN receive message and a 10-byte
fragment: the one message is dispatched, a format error is reported, the
fragment has no effect, and a following completion is parsed from offset 0. -/
theorem read_callback_fragment :
    udt1cri_usb_read_bulk_callback probe_priv fragment_urb (fun _ => some zero_frame) 0
      = { probe_priv with
          stats := { probe_priv.stats with rx_packets := 1, rx_bytes := 3 }
          trace := [event.netif_rx ⟨0x123, 3, [1, 2, 3, 0, 0, 0, 0, 0]⟩, event.err_format,
                    event.submit_read_urb] }
    ∧ (udt1cri_usb_read_bulk_callback
        (udt1cri_usb_read_bulk_callback probe_priv fragment_urb (fun _ => some zero_frame) 0)
        { status := 0, transfer_buffer := ka_usb_msg ++ List.replicate 492 0,
          actual_length := 20 } (fun _ => none) 0).trace
      = [event.netif_rx ⟨0x123, 3, [1, 2, 3, 0, 0, 0, 0, 0]⟩, event.err_format, event.submit_read_urb, event.info_usb_version 1 2,
         event.submit_read_urb] := by
  decide

/-! ## Outbound messages -/

/-- C11 at the failing inputs. `udt1cri_usb_start_xmit` never writes the flags
byte of its message. From a zeroed stack an extended frame goes out with bit
`0x01` clear and a remote-request frame with bit `0x02` clear; with `0x01` left
on the stack a standard frame goes out with bit `0x01` set; and one frame gives
two different flags bytes on two stacks. -/
theorem start_xmit_flags_unwritten :
    UDT1CRI_TX_IS_EXID sample_ext_frame ≠ 0
    ∧ udt1cri_usb_msg_can.flags (udt1cri_usb_start_xmit_msg sample_ext_frame zero_stack)
        &&& FLAG_CAN_EID = 0
    ∧ UDT1CRI_TX_IS_RTR sample_rtr_frame ≠ 0
    ∧ udt1cri_usb_msg_can.flags (udt1cri_usb_start_xmit_msg sample_rtr_frame zero_stack)
        &&& FLAG_CAN_RTR = 0
    ∧ UDT1CRI_TX_IS_EXID sample_frame = 0
    ∧ udt1cri_usb_msg_can.flags (udt1cri_usb_start_xmit_msg sample_frame dirty_stack)
        &&& FLAG_CAN_EID ≠ 0
    ∧ udt1cri_usb_msg_can.flags (udt1cri_usb_start_xmit_msg sample_frame zero_stack)
        ≠ udt1cri_usb_msg_can.flags (udt1cri_usb_start_xmit_msg sample_frame dirty_stack) := by
  decide

/-- Every outbound message is 20 bytes long when built in a 20-byte variable. -/
theorem outbound_msg_length (cf : can_frame) (k : Nat) (stack : List Nat)
    (hstack : stack.length = 20) (hdata : cf.data.length = 8) :
    (udt1cri_usb_msg_change_bitrate k stack).length = 20
    ∧ (udt1cri_usb_msg_termination k stack).length = 20
    ∧ (udt1cri_usb_msg_fw_ver k stack).length = 20
    ∧ (udt1cri_usb_start_xmit_msg cf stack).length = 20 := by
  obtain ⟨id, dlc, data⟩ := cf
  obtain ⟨b0, b1, b2, b3, b4, b5, b6, b7, b8, b9, b10, b11, b12, b13, b14, b15, b16, b17, b18,
    b19, rfl⟩ := list_of_length_20 stack hstack
  obtain ⟨d0, d1, d2, d3, d4, d5, d6, d7, rfl⟩ := list_of_length_8 data hdata
  refine ⟨by simp [udt1cri_usb_msg_change_bitrate], by simp [udt1cri_usb_msg_termination],
    by simp [udt1cri_usb_msg_fw_ver], ?_⟩
  rw [start_xmit_msg_bytes]
  rfl

/-- The bytes of an outbound message that the builder does not set keep what
the automatic variable held: nothing is zero-filled. -/
theorem outbound_msg_unset_bytes (cf : can_frame) (k : Nat) (stack : List Nat)
    (hstack : stack.length = 20) (hdata : cf.data.length = 8) :
    (udt1cri_usb_msg_change_bitrate k stack).drop 3 = stack.drop 3
    ∧ (udt1cri_usb_msg_termination k stack).drop 2 = stack.drop 2
    ∧ (udt1cri_usb_msg_fw_ver k stack).drop 2 = stack.drop 2
    ∧ udt1cri_usb_msg_can.checksum (udt1cri_usb_start_xmit_msg cf stack)
        = udt1cri_usb_msg_can.checksum stack
    ∧ udt1cri_usb_msg_can.timestamp (udt1cri_usb_start_xmit_msg cf stack)
        = udt1cri_usb_msg_can.timestamp stack := by
  obtain ⟨id, dlc, data⟩ := cf
  obtain ⟨b0, b1, b2, b3, b4, b5, b6, b7, b8, b9, b10, b11, b12, b13, b14, b15, b16, b17, b18,
    b19, rfl⟩ := list_of_length_20 stack hstack
  obtain ⟨d0, d1, d2, d3, d4, d5, d6, d7, rfl⟩ := list_of_length_8 data hdata
  refine ⟨by simp [udt1cri_usb_msg_change_bitrate], by simp [udt1cri_usb_msg_termination],
    by simp [udt1cri_usb_msg_fw_ver], ?_, ?_⟩
  · rw [start_xmit_msg_bytes]; rfl
  · rw [start_xmit_msg_bytes]; rfl

/-- C15 at the failing input. Built in a variable whose 20 bytes hold `0xAA`,
the change-bitrate, set-termination and read-version messages carry `0xAA` in
every unused byte and the transmit request carries `0xAA` in its flags,
checksum and timestamp bytes; these are the bytes handed to the USB core. All
four messages are 20 bytes long. -/
theorem outbound_msg_not_zero_filled :
    udt1cri_usb_msg_change_bitrate 125 aa_stack
      = [0xA1, 0, 125, 0xAA, 0xAA, 0xAA, 0xAA, 0xAA, 0xAA, 0xAA, 0xAA, 0xAA, 0xAA, 0xAA, 0xAA,
         0xAA, 0xAA, 0xAA, 0xAA, 0xAA]
    ∧ udt1cri_usb_msg_termination 1 aa_stack
      = [0xA8, 1, 0xAA, 0xAA, 0xAA, 0xAA, 0xAA, 0xAA, 0xAA, 0xAA, 0xAA, 0xAA, 0xAA, 0xAA, 0xAA,
         0xAA, 0xAA, 0xAA, 0xAA, 0xAA]
    ∧ udt1cri_usb_msg_fw_ver UDT1CRI_VER_REQ_CAN aa_stack
      = [0xA9, 2, 0xAA, 0xAA, 0xAA, 0xAA, 0xAA, 0xAA, 0xAA, 0xAA, 0xAA, 0xAA, 0xAA, 0xAA, 0xAA,
         0xAA, 0xAA, 0xAA, 0xAA, 0xAA]
    ∧ udt1cri_usb_start_xmit_msg sample_ext_frame aa_stack
      = [0xA3, 2, 0xAA, 0xAA, 0x23, 0x01, 0x00, 0x80, 0xAA, 0xAA, 0xAA, 0xAA, 1, 2, 3, 4, 5, 6,
         7, 8]
    ∧ (udt1cri_usb_xmit_termination started_priv 1 aa_stack ok_env).trace
      = [event.usb_submit_write_urb 0
          [0xA8, 1, 0xAA, 0xAA, 0xAA, 0xAA, 0xAA, 0xAA, 0xAA, 0xAA, 0xAA, 0xAA, 0xAA, 0xAA, 0xAA,
           0xAA, 0xAA, 0xAA, 0xAA, 0xAA] 0] := by
  decide

/-! ## Change-bitrate encoding -/

theorem testBit_ff00 (j : Nat) : Nat.testBit 0xff00 (8 + j) = decide (j < 8) := by
  by_cases h : j < 8
  · interval_cases j <;> rfl
  · have hlt : 0xff00 < 2 ^ (8 + j) :=
      Nat.lt_of_lt_of_le (by decide : 0xff00 < 2 ^ 16)
        (Nat.pow_le_pow_right (by decide) (by omega))
    rw [Nat.testBit_lt_two_pow hlt]
    simp [h]

/-- The high byte computed by `(0xff00 & bitrate) >> 8`. -/
theorem bitrate_hi_byte (k : Nat) : ((0xff00 &&& k) >>> 8) % 256 = k / 256 % 256 := by
  have h : (0xff00 &&& k) >>> 8 = (k >>> 8) % 2 ^ 8 := by
    apply Nat.eq_of_testBit_eq
    intro j
    simp only [Nat.testBit_shiftRight, Nat.testBit_and, Nat.testBit_mod_two_pow, testBit_ff00]
  rw [h, Nat.shiftRight_eq_div_pow]
  omega

/-- The low byte computed by `0xff & bitrate`. -/
theorem bitrate_lo_byte (k : Nat) : (0xff &&& k) % 256 = k % 256 := by
  have h : 0xff &&& k = k % 2 ^ 8 := by
    rw [Nat.and_comm]
    exact Nat.and_pow_two_sub_one_eq_mod k 8
  rw [h]
  omega

theorem search_foldl_some (l : List bitrate_settings) (b : Nat)
    (init : Option bitrate_settings) (r : bitrate_settings)
    (h : l.foldl (fun settings row => if row.bt.bitrate = b then some row else settings) init
      = some r) :
    (r ∈ l ∧ r.bt.bitrate = b) ∨ init = some r := by
  induction l generalizing init with
  | nil => exact Or.inr h
  | cons x l ih =>
    rw [List.foldl_cons] at h
    rcases ih _ h with h1 | h1
    · exact Or.inl ⟨List.mem_cons_of_mem _ h1.1, h1.2⟩
    · by_cases hx : x.bt.bitrate = b
      · rw [if_pos hx] at h1
        simp only [Option.some.injEq] at h1
        subst h1
        exact Or.inl ⟨List.mem_cons_self _ _, hx⟩
      · rw [if_neg hx] at h1
        exact Or.inr h1

/-- The row the search returns is a row of the table with the requested bitrate. -/
theorem search_some (b : Nat) (row : bitrate_settings)
    (h : udt1cri_net_set_bittiming_search b = some row) :
    row ∈ br_settings ∧ row.bt.bitrate = b := by
  rcases search_foldl_some br_settings b none row h with h1 | h1
  · exact h1
  · simp at h1

/-- C16. For every 16-bit rate code `k` the message built by
`udt1cri_usb_xmit_change_bitrate` has tag `0xA1`, byte 1 equal to `k / 256` and
byte 2 equal to `k % 256`, so that `256 * byte1 + byte2 = k`, and this is the
message handed to the transmit path. When `udt1cri_net_set_bittiming` succeeds
the rate code it passes is the `kbps` field of the row the search matched, and
with a free slot and a send that goes through the bytes submitted are
`0xA1`, `kbps / 256`, `kbps % 256`. -/
theorem change_bitrate_encoding (k : Nat) (stack : List Nat) (hk : k < 65536)
    (hstack : stack.length = 20) :
    udt1cri_usb_msg_change_bitrate k stack
      = [UDT1CRI_CMD_CHANGE_BIT_RATE, k / 256, k % 256] ++ stack.drop 3
    ∧ udt1cri_usb_msg_can.cmd_id (udt1cri_usb_msg_change_bitrate k stack) = 0xA1
    ∧ 256 * (udt1cri_usb_msg_change_bitrate k stack).getD 1 0
        + (udt1cri_usb_msg_change_bitrate k stack).getD 2 0 = k
    ∧ (∀ (priv : udt1cri_priv) (env : xmit_env),
        udt1cri_usb_xmit_change_bitrate priv k stack env
          = udt1cri_usb_xmit_cmd priv
              ([UDT1CRI_CMD_CHANGE_BIT_RATE, k / 256, k % 256] ++ stack.drop 3) env)
    ∧ (∀ (priv : udt1cri_priv) (env : xmit_env) (row : bitrate_settings),
        udt1cri_net_set_bittiming_search priv.bittiming.bitrate = some row →
        (udt1cri_net_set_bittiming priv stack env).1 = 0
        ∧ (udt1cri_net_set_bittiming priv stack env).2
          = udt1cri_usb_xmit_change_bitrate
              { priv with bittiming := { row.bt with bitrate := 1000000000 /
                (((row.bt.sjw + row.bt.prop_seg + row.bt.phase_seg1 + row.bt.phase_seg2)
                  * row.bt.tq) % 2 ^ 32) } }
              row.kbps stack env
        ∧ (∀ slot, (udt1cri_usb_get_free_ctx priv).1 = some slot → env = ok_env →
            (udt1cri_net_set_bittiming priv stack env).2.trace
              = priv.trace ++ [event.usb_submit_write_urb slot
                  ([UDT1CRI_CMD_CHANGE_BIT_RATE, row.kbps / 256, row.kbps % 256]
                    ++ stack.drop 3) 0])) := by
  have hmsg : ∀ c, c < 65536 → udt1cri_usb_msg_change_bitrate c stack
      = [UDT1CRI_CMD_CHANGE_BIT_RATE, c / 256, c % 256] ++ stack.drop 3 := by
    intro c hc
    obtain ⟨b0, b1, b2, b3, b4, b5, b6, b7, b8, b9, b10, b11, b12, b13, b14, b15, b16, b17,
      b18, b19, rfl⟩ := list_of_length_20 stack hstack
    have hhi : c / 256 % 256 = c / 256 := by omega
    simp only [udt1cri_usb_msg_change_bitrate, bitrate_hi_byte, bitrate_lo_byte, hhi]
    rfl
  refine ⟨hmsg k hk, ?_, ?_, ?_, ?_⟩
  · rw [hmsg k hk]; rfl
  · rw [hmsg k hk]
    simp only [List.cons_append, List.getD_cons_zero, List.getD_cons_succ]
    omega
  · intro priv env
    rw [udt1cri_usb_xmit_change_bitrate, hmsg k hk]
  · intro priv env row hrow
    have hset : udt1cri_net_set_bittiming priv stack env
        = (0, udt1cri_usb_xmit_change_bitrate
              { priv with bittiming := { row.bt with bitrate := 1000000000 /
                (((row.bt.sjw + row.bt.prop_seg + row.bt.phase_seg1 + row.bt.phase_seg2)
                  * row.bt.tq) % 2 ^ 32) } }
              row.kbps stack env) := by
      unfold udt1cri_net_set_bittiming
      rw [hrow]
    refine ⟨by rw [hset], by rw [hset], ?_⟩
    intro slot hslot henv
    subst henv
    have hkb : row.kbps < 65536 := by
      have hall : ∀ r ∈ br_settings, r.kbps < 65536 := by decide
      exact hall row (search_some _ _ hrow).1
    rw [hset]
    simp only [udt1cri_usb_xmit_change_bitrate]
    rw [xmit_cmd_trace_ok _ _ slot (by simpa [udt1cri_usb_get_free_ctx] using hslot),
      hmsg row.kbps hkb]
    obtain ⟨b0, b1, b2, b3, b4, b5, b6, b7, b8, b9, b10, b11, b12, b13, b14, b15, b16, b17,
      b18, b19, rfl⟩ := list_of_length_20 stack hstack
    rfl

/-- C16 at the rate code 1000 of the 1 Mbit/s row, built on a zeroed stack. -/
theorem change_bitrate_encoding_witness :
    udt1cri_usb_msg_change_bitrate 1000 zero_stack
      = [UDT1CRI_CMD_CHANGE_BIT_RATE, 1000 / 256, 1000 % 256] ++ zero_stack.drop 3
    ∧ 256 * (udt1cri_usb_msg_change_bitrate 1000 zero_stack).getD 1 0
        + (udt1cri_usb_msg_change_bitrate 1000 zero_stack).getD 2 0 = 1000 :=
  ⟨(change_bitrate_encoding 1000 zero_stack (by decide) (by decide)).1,
    (change_bitrate_encoding 1000 zero_stack (by decide) (by decide)).2.2.1⟩

/-! ## Effective bitrate -/

theorem divisor_row : ∀ row ∈ br_settings,
    (row.bt.sjw + row.bt.prop_seg + row.bt.phase_seg1 + row.bt.phase_seg2) * row.bt.tq ≠ 0
    ∧ ((row.bt.sjw + row.bt.prop_seg + row.bt.phase_seg1 + row.bt.phase_seg2) * row.bt.tq)
        % 2 ^ 32
      = (row.bt.sjw + row.bt.prop_seg + row.bt.phase_seg1 + row.bt.phase_seg2) * row.bt.tq := by
  decide

/-- C17. Whenever `udt1cri_net_set_bittiming` returns 0 there is a row of
`br_settings` with the requested bitrate, the one the search matched, and the
bit-timing record afterwards has the `sample_point`, `tq`, `prop_seg`,
`phase_seg1`, `phase_seg2`, `sjw` and `brp` of that row and the bitrate
`1000000000 / ((sjw + prop_seg + phase_seg1 + phase_seg2) * tq)` computed from
it; and the divisor is non-zero for every one of the 18 rows. -/
theorem set_bittiming_effective (priv : udt1cri_priv) (stack : List Nat) (env : xmit_env)
    (h : (udt1cri_net_set_bittiming priv stack env).1 = 0) :
    (∃ row ∈ br_settings, row.bt.bitrate = priv.bittiming.bitrate
      ∧ udt1cri_net_set_bittiming_search priv.bittiming.bitrate = some row
      ∧ (udt1cri_net_set_bittiming priv stack env).2.bittiming
        = { bitrate := 1000000000 /
              ((row.bt.sjw + row.bt.prop_seg + row.bt.phase_seg1 + row.bt.phase_seg2)
                * row.bt.tq)
            sample_point := row.bt.sample_point
            tq := row.bt.tq
            prop_seg := row.bt.prop_seg
            phase_seg1 := row.bt.phase_seg1
            phase_seg2 := row.bt.phase_seg2
            sjw := row.bt.sjw
            brp := row.bt.brp })
    ∧ br_settings.length = 18
    ∧ (∀ row ∈ br_settings,
        (row.bt.sjw + row.bt.prop_seg + row.bt.phase_seg1 + row.bt.phase_seg2) * row.bt.tq
          ≠ 0) := by
  refine ⟨?_, by decide, fun row hrow => (divisor_row row hrow).1⟩
  cases hs : udt1cri_net_set_bittiming_search priv.bittiming.bitrate with
  | none =>
    unfold udt1cri_net_set_bittiming at h
    rw [hs] at h
    simp [EINVAL] at h
  | some row =>
    obtain ⟨hmem, hbr⟩ := search_some _ _ hs
    refine ⟨row, hmem, hbr, rfl, ?_⟩
    unfold udt1cri_net_set_bittiming
    rw [hs]
    simp only [udt1cri_usb_xmit_change_bitrate, udt1cri_usb_xmit_cmd, xmit_bittiming,
      (divisor_row row hmem).2]

/-- C17 at a request of 19940 bits/sec on a started device, which succeeds. -/
theorem set_bittiming_effective_witness :
    (udt1cri_net_set_bittiming (request_priv 19940) zero_stack ok_env).1 = 0
    ∧ (∃ row ∈ br_settings, row.bt.bitrate = (request_priv 19940).bittiming.bitrate
      ∧ udt1cri_net_set_bittiming_search (request_priv 19940).bittiming.bitrate = some row
      ∧ (udt1cri_net_set_bittiming (request_priv 19940) zero_stack ok_env).2.bittiming
        = { bitrate := 1000000000 /
              ((row.bt.sjw + row.bt.prop_seg + row.bt.phase_seg1 + row.bt.phase_seg2)
                * row.bt.tq)
            sample_point := row.bt.sample_point
            tq := row.bt.tq
            prop_seg := row.bt.prop_seg
            phase_seg1 := row.bt.phase_seg1
            phase_seg2 := row.bt.phase_seg2
            sjw := row.bt.sjw
            brp := row.bt.brp }) :=
  ⟨by decide, (set_bittiming_effective (request_priv 19940) zero_stack ok_env (by decide)).1⟩

/-! ## Termination control -/

theorem xmit_nomem_termination_state (priv : udt1cri_priv) (ctx : Nat)
    (skb : Option can_frame) :
    (udt1cri_usb_xmit_nomem priv ctx skb).2.termination_state = priv.termination_state := rfl

/-- Sending never touches the stored termination state. -/
theorem xmit_termination_state (priv : udt1cri_priv) (usb_msg : List Nat)
    (skb : Option can_frame) (env : xmit_env) :
    (udt1cri_usb_xmit priv usb_msg skb env).2.termination_state = priv.termination_state := by
  unfold udt1cri_usb_xmit
  rcases h : udt1cri_usb_get_free_ctx priv with ⟨_ | ctx, p⟩
  · have : p.termination_state = priv.termination_state := by
      have := congrArg (fun r => r.2.termination_state) h
      simpa [udt1cri_usb_get_free_ctx] using this.symm
    simpa using this
  · have hp : p.termination_state = priv.termination_state := by
      have := congrArg (fun r => r.2.termination_state) h
      simpa [udt1cri_usb_get_free_ctx] using this.symm
    cases skb <;> simp only [can_put_echo_skb] <;> split_ifs <;>
      simp [xmit_nomem_termination_state, hp]

/-! ## Pool exhaustion -/

/-- C18. When all 20 slots are in use `udt1cri_usb_xmit` returns
`NETDEV_TX_BUSY`, and the state after differs from the state before only in
that the transmit queue is stopped: the pool, the echo table, `tx_dropped` and
the other statistics are unchanged and the frame is neither freed nor stored. -/
theorem xmit_pool_exhausted (priv : udt1cri_priv) (usb_msg : List Nat)
    (skb : Option can_frame) (env : xmit_env) (hlen : priv.tx_context.length = 20)
    (hfull : in_use_count priv = 20) :
    udt1cri_usb_xmit priv usb_msg skb env
      = (NETDEV_TX_BUSY,
          { priv with queue_stopped := true
                      trace := priv.trace ++ [event.netif_stop_queue] }) := by
  unfold udt1cri_usb_xmit
  rw [get_free_ctx_full priv hlen hfull]

/-- C18 on a started device whose 20 slots were all acquired, for a CAN frame. -/
theorem xmit_pool_exhausted_witness :
    full_priv.tx_context.length = 20 ∧ in_use_count full_priv = 20
    ∧ udt1cri_usb_xmit full_priv (udt1cri_usb_start_xmit_msg sample_rtr_frame zero_stack)
        (some sample_rtr_frame) ok_env
      = (NETDEV_TX_BUSY,
          { full_priv with queue_stopped := true
                           trace := full_priv.trace ++ [event.netif_stop_queue] }) :=
  ⟨by decide, by decide,
    xmit_pool_exhausted full_priv _ (some sample_rtr_frame) ok_env (by decide) (by decide)⟩

/-! ## Failed sends and completions -/

set_option maxRecDepth 8192 in
/-- C12 at the failing inputs. On a started device with all 20 slots free, a
send that fails at the URB allocation, at the buffer allocation or at the
submit returns `NETDEV_TX_OK` and counts one drop, and the slot it acquired
stays in use: one slot is in use after the call where none was before. After
20 such failures, with no write in flight, a send is refused with
`NETDEV_TX_BUSY`. -/
theorem xmit_failure_keeps_slot :
    in_use_count started_priv = 0
    ∧ (udt1cri_usb_xmit started_priv (udt1cri_usb_msg_termination 1 zero_stack) none
        no_urb_env).1 = NETDEV_TX_OK
    ∧ (udt1cri_usb_xmit started_priv (udt1cri_usb_msg_termination 1 zero_stack) none
        no_urb_env).2.stats.tx_dropped = 1
    ∧ in_use_count (udt1cri_usb_xmit started_priv (udt1cri_usb_msg_termination 1 zero_stack)
        none no_urb_env).2 = 1
    ∧ ((udt1cri_usb_xmit started_priv (udt1cri_usb_msg_termination 1 zero_stack) none
        no_urb_env).2.tx_context.getD 0 default).ndx = 0
    ∧ in_use_count (udt1cri_usb_xmit started_priv (udt1cri_usb_msg_termination 1 zero_stack)
        none no_buf_env).2 = 1
    ∧ (udt1cri_usb_start_xmit started_priv sample_rtr_frame zero_stack submit_err_env).1
        = NETDEV_TX_OK
    ∧ (udt1cri_usb_start_xmit started_priv sample_rtr_frame zero_stack
        submit_err_env).2.stats.tx_dropped = 1
    ∧ in_use_count (udt1cri_usb_start_xmit started_priv sample_rtr_frame zero_stack
        submit_err_env).2 = 1
    ∧ in_use_count leaked_priv = 20
    ∧ (udt1cri_usb_start_xmit leaked_priv sample_rtr_frame zero_stack ok_env).1
        = NETDEV_TX_BUSY := by
  decide

/-- C13 at the failing input. A CAN frame is in flight on slot 0 when the
device is detached. The write completion then returns at once, whatever the
status: the state is unchanged, slot 0 keeps `ndx = 0`, `dlc = 3` and
`can = true`, and the transfer buffer is not freed. -/
theorem write_callback_keeps_can_slot :
    detached_priv.present = false
    ∧ detached_priv.tx_context.getD 0 default = { priv := true, ndx := 0, dlc := 3, can := true }
    ∧ udt1cri_usb_write_bulk_callback detached_priv 0 0 = detached_priv
    ∧ udt1cri_usb_write_bulk_callback detached_priv 0 (-ESHUTDOWN) = detached_priv
    ∧ ((udt1cri_usb_write_bulk_callback detached_priv 0 0).tx_context.getD 0 default).ndx
        ≠ UDT1CRI_CTX_FREE
    ∧ in_use_count (udt1cri_usb_write_bulk_callback detached_priv 0 0) = 1 := by
  decide

theorem can_get_echo_skb_tx_context (priv : udt1cri_priv) (idx : Nat) :
    (can_get_echo_skb priv idx).tx_context = priv.tx_context := by
  unfold can_get_echo_skb
  split <;> rfl

theorem write_callback_tail_tx_context (priv : udt1cri_priv) (ctx : Nat) (status : Int) :
    (udt1cri_usb_write_bulk_callback_tail priv ctx status).tx_context
      = priv.tx_context.set ctx
          { priv := false, ndx := UDT1CRI_CTX_FREE, dlc := 0, can := false } := by
  unfold udt1cri_usb_write_bulk_callback_tail
  split_ifs <;> rfl

/-- The write completion releases the slot in every other case: when the slot
carries a control command, or when the device is present. -/
theorem write_callback_releases (priv : udt1cri_priv) (ctx : Nat) (status : Int)
    (hctx : ctx < priv.tx_context.length)
    (h : (priv.tx_context.getD ctx default).can = false ∨ priv.present = true) :
    (udt1cri_usb_write_bulk_callback priv ctx status).tx_context.getD ctx default
      = { priv := false, ndx := UDT1CRI_CTX_FREE, dlc := 0, can := false } := by
  unfold udt1cri_usb_write_bulk_callback
  by_cases hcan : (priv.tx_context.getD ctx default).can = true
  · have hp : priv.present = true := by
      rcases h with h | h
      · rw [hcan] at h; exact absurd h (by decide)
      · exact h
    simp only [hcan, hp, if_true, Bool.not_true, Bool.false_eq_true, if_false]
    rw [write_callback_tail_tx_context]
    simp only [can_get_echo_skb_tx_context]
    exact getD_set_self _ _ _ _ hctx
  · simp only [hcan, Bool.false_eq_true, if_false]
    rw [write_callback_tail_tx_context]
    exact getD_set_self _ _ _ _ hctx

/-! ## Control-only sends -/

/-- An acquire that returns slot `k` marks that slot and changes nothing else. -/
theorem get_free_ctx_some (priv : udt1cri_priv) (k : Nat)
    (h : (udt1cri_usb_get_free_ctx priv).1 = some k) :
    k < 20 ∧ (priv.tx_context.getD k default).ndx = UDT1CRI_CTX_FREE
    ∧ (∀ j, j < k → (priv.tx_context.getD j default).ndx ≠ UDT1CRI_CTX_FREE)
    ∧ udt1cri_usb_get_free_ctx priv
      = (some k, { priv with tx_context :=
          priv.tx_context.set k { priv.tx_context.getD k default with ndx := k, priv := true } })
    := by
  rcases hl : udt1cri_usb_get_free_ctx_loop priv.tx_context UDT1CRI_MAX_TX_URBS 0
    with ⟨r, t2⟩
  have hr : r = some k := by
    simpa [udt1cri_usb_get_free_ctx, hl] using h
  subst hr
  obtain ⟨_, h2, h3, h4, h5⟩ := get_free_ctx_loop_some _ _ _ _ _ hl
  refine ⟨by simpa [UDT1CRI_MAX_TX_URBS] using h2, h3, fun j hj => h4 j (Nat.zero_le _) hj, ?_⟩
  simp only [udt1cri_usb_get_free_ctx, hl, h5]

/-- Marking a free slot below 20 as in use raises the in-use count by one. -/
theorem in_use_count_set_busy (priv : udt1cri_priv) (k : Nat) (c : udt1cri_usb_ctx)
    (hk : k < priv.tx_context.length)
    (hfree : (priv.tx_context.getD k default).ndx = UDT1CRI_CTX_FREE)
    (hc : c.ndx ≠ UDT1CRI_CTX_FREE) :
    in_use_count { priv with tx_context := priv.tx_context.set k c } = in_use_count priv + 1 := by
  have hget : priv.tx_context.getD k default = priv.tx_context[k] := by
    rw [List.getD_eq_getElem?_getD, List.getElem?_eq_getElem hk]; rfl
  rw [hget] at hfree
  simp only [in_use_count]
  rw [List.countP_set _ _ _ _ hk]
  simp [hfree, hc]

/-- C19. A control command sent while slot `slot` is the first free one, with
both allocations succeeding and the submit returning 0, returns
`NETDEV_TX_OK`, raises the number of slots in use by exactly one, and leaves
slot `slot` in use with its `can` flag false; statistics and echo table are
untouched by the send. The write completion of that slot, and of any slot
whose `can` flag is false, leaves the statistics (so `tx_packets` and
`tx_bytes`), the echo table and the queue state unchanged: the calls it adds to
the trace are the buffer release and, for a non-zero status, the abort report,
none of them `netif_wake_queue`. -/
theorem control_send (priv : udt1cri_priv) (usb_msg : List Nat) (slot : Nat)
    (hlen : priv.tx_context.length = 20)
    (hslot : (udt1cri_usb_get_free_ctx priv).1 = some slot) :
    (udt1cri_usb_xmit priv usb_msg none ok_env).1 = NETDEV_TX_OK
    ∧ in_use_count (udt1cri_usb_xmit priv usb_msg none ok_env).2 = in_use_count priv + 1
    ∧ (udt1cri_usb_xmit priv usb_msg none ok_env).2.tx_context.getD slot default
      = { priv := true, ndx := slot, dlc := (priv.tx_context.getD slot default).dlc,
          can := false }
    ∧ (∀ j, j ≠ slot →
        (udt1cri_usb_xmit priv usb_msg none ok_env).2.tx_context.getD j default
          = priv.tx_context.getD j default)
    ∧ (udt1cri_usb_xmit priv usb_msg none ok_env).2.stats = priv.stats
    ∧ (udt1cri_usb_xmit priv usb_msg none ok_env).2.echo_skb = priv.echo_skb
    ∧ (∀ (p : udt1cri_priv) (ctx : Nat) (status : Int),
        (p.tx_context.getD ctx default).can = false →
        (udt1cri_usb_write_bulk_callback p ctx status).stats = p.stats
        ∧ (udt1cri_usb_write_bulk_callback p ctx status).echo_skb = p.echo_skb
        ∧ (udt1cri_usb_write_bulk_callback p ctx status).queue_stopped = p.queue_stopped
        ∧ (udt1cri_usb_write_bulk_callback p ctx status).trace
          = p.trace ++ [event.usb_free_coherent]
            ++ (if status ≠ 0 then [event.info_tx_urb_aborted status] else [])
        ∧ event.netif_wake_queue ∉
            [event.usb_free_coherent]
              ++ (if status ≠ 0 then [event.info_tx_urb_aborted status] else [])) := by
  obtain ⟨hk, hfree, _, hget⟩ := get_free_ctx_some priv slot hslot
  have hk2 : slot < priv.tx_context.length := by omega
  have hne : slot ≠ UDT1CRI_CTX_FREE := by
    simp only [UDT1CRI_CTX_FREE, UDT1CRI_MAX_TX_URBS]; omega
  have hx : udt1cri_usb_xmit priv usb_msg none ok_env
      = (NETDEV_TX_OK, { priv with
          tx_context := priv.tx_context.set slot
            { priv := true, ndx := slot, dlc := (priv.tx_context.getD slot default).dlc,
              can := false }
          trace := priv.trace ++ [event.usb_submit_write_urb slot
            (usb_msg.take UDT1CRI_USB_TX_BUFF_SIZE) 0] }) := by
    unfold udt1cri_usb_xmit
    rw [hget]
    simp only [ok_env, Bool.not_true, Bool.false_eq_true, if_false, ne_eq, not_true_eq_false,
      getD_set_self _ _ _ _ hk2, List.set_set]
  rw [hx]
  refine ⟨rfl, ?_, getD_set_self _ _ _ _ hk2, fun j hj => getD_set_ne _ _ _ _ _ (Ne.symm hj),
    rfl, rfl, ?_⟩
  · exact in_use_count_set_busy priv slot _ hk2 hfree hne
  · intro p ctx status hcan
    unfold udt1cri_usb_write_bulk_callback udt1cri_usb_write_bulk_callback_tail
    simp only [hcan, Bool.false_eq_true, if_false]
    by_cases hs : status = 0
    · simp [hs, udt1cri_usb_free_ctx]
    · simp [hs, udt1cri_usb_free_ctx]

/-- C19 on a started device: a set-termination command takes slot 0, and its
completion leaves statistics and echo table as they were. -/
theorem control_send_witness :
    started_priv.tx_context.length = 20
    ∧ (udt1cri_usb_get_free_ctx started_priv).1 = some 0
    ∧ in_use_count (udt1cri_usb_xmit started_priv (udt1cri_usb_msg_termination 1 zero_stack)
        none ok_env).2 = in_use_count started_priv + 1
    ∧ (udt1cri_usb_xmit started_priv (udt1cri_usb_msg_termination 1 zero_stack) none
        ok_env).2.tx_context.getD 0 default
      = { priv := true, ndx := 0, dlc := (started_priv.tx_context.getD 0 default).dlc,
          can := false } :=
  ⟨by decide, by decide,
    (control_send started_priv (udt1cri_usb_msg_termination 1 zero_stack) 0 (by decide)
      (by decide)).2.1,
    (control_send started_priv (udt1cri_usb_msg_termination 1 zero_stack) 0 (by decide)
      (by decide)).2.2.1⟩

/-! ## Transmit-context pool: first free slot -/

/-- A free slot below 20 makes the acquire succeed. -/
theorem get_free_ctx_of_free (priv : udt1cri_priv) (j : Nat) (hj : j < 20)
    (hfree : (priv.tx_context.getD j default).ndx = UDT1CRI_CTX_FREE) :
    ∃ i, (udt1cri_usb_get_free_ctx priv).1 = some i := by
  rcases hl : udt1cri_usb_get_free_ctx_loop priv.tx_context UDT1CRI_MAX_TX_URBS 0
    with ⟨_ | i, t2⟩
  · have hbusy := (get_free_ctx_loop_none _ _ _ _ hl).2 j (Nat.zero_le _)
      (by simp only [UDT1CRI_MAX_TX_URBS]; omega)
    exact absurd hfree hbusy
  · exact ⟨i, by simp only [udt1cri_usb_get_free_ctx, hl]⟩

/-- Each step on the pool keeps every slot at position `i` at `ndx = i` or
`ndx = UDT1CRI_CTX_FREE`. -/
theorem pool_step_ndx (priv : udt1cri_priv) (op : pool_op)
    (hlen : priv.tx_context.length = 20)
    (hinv : ∀ i, i < 20 → (priv.tx_context.getD i default).ndx = i
      ∨ (priv.tx_context.getD i default).ndx = UDT1CRI_CTX_FREE) :
    ∀ i, i < 20 → ((pool_step priv op).tx_context.getD i default).ndx = i
      ∨ ((pool_step priv op).tx_context.getD i default).ndx = UDT1CRI_CTX_FREE := by
  intro i hi
  cases op with
  | acquire =>
    simp only [pool_step]
    rcases hr : (udt1cri_usb_get_free_ctx priv).1 with _ | k
    · have hl : udt1cri_usb_get_free_ctx_loop priv.tx_context UDT1CRI_MAX_TX_URBS 0
          = (none, (udt1cri_usb_get_free_ctx priv).2.tx_context) := by
        simp only [udt1cri_usb_get_free_ctx] at hr ⊢
        exact Prod.ext hr rfl
      rw [(get_free_ctx_loop_none _ _ _ _ hl).1]
      exact hinv i hi
    · obtain ⟨hk, _, _, hget⟩ := get_free_ctx_some priv k hr
      rw [hget]
      by_cases hik : i = k
      · subst hik
        rw [getD_set_self _ _ _ _ (by omega)]
        exact Or.inl rfl
      · rw [getD_set_ne _ _ _ _ _ (Ne.symm hik)]
        exact hinv i hi
  | release ctx =>
    simp only [pool_step, udt1cri_usb_free_ctx]
    by_cases hic : i = ctx.val
    · subst hic
      rw [getD_set_self _ _ _ _ (by omega)]
      exact Or.inr rfl
    · rw [getD_set_ne _ _ _ _ _ (Ne.symm hic)]
      exact hinv i hi

theorem pool_run_ndx (priv : udt1cri_priv) (ops : List pool_op)
    (hlen : priv.tx_context.length = 20)
    (hinv : ∀ i, i < 20 → (priv.tx_context.getD i default).ndx = i
      ∨ (priv.tx_context.getD i default).ndx = UDT1CRI_CTX_FREE) :
    ∀ i, i < 20 → ((pool_run priv ops).tx_context.getD i default).ndx = i
      ∨ ((pool_run priv ops).tx_context.getD i default).ndx = UDT1CRI_CTX_FREE := by
  induction ops generalizing priv with
  | nil => exact hinv
  | cons op ops ih =>
    have hcons : pool_run priv (op :: ops) = pool_run (pool_step priv op) ops := rfl
    rw [hcons]
    exact ih (pool_step priv op) (by rw [pool_step_length, hlen]) (pool_step_ndx priv op hlen hinv)

/-- C20. For every pool state with a free slot `j`, `udt1cri_usb_get_free_ctx`
returns the free slot `i` of lowest index, sets the `ndx` of that slot to `i`
(and its back pointer), and leaves every other slot and the rest of the state
unchanged. Consequently, in every state reached from `udt1cri_init_ctx` by
acquires and releases, the slot at position `i` has `ndx = i` (in use) or
`ndx = 20` (free). -/
theorem acquire_first_free (priv : udt1cri_priv) (j : Nat)
    (hlen : priv.tx_context.length = 20) (hj : j < 20)
    (hfree : (priv.tx_context.getD j default).ndx = UDT1CRI_CTX_FREE) :
    (∃ i, i ≤ j ∧ (udt1cri_usb_get_free_ctx priv).1 = some i
      ∧ (priv.tx_context.getD i default).ndx = UDT1CRI_CTX_FREE
      ∧ (∀ m, m < i → (priv.tx_context.getD m default).ndx ≠ UDT1CRI_CTX_FREE)
      ∧ (udt1cri_usb_get_free_ctx priv).2.tx_context.getD i default
        = { priv.tx_context.getD i default with ndx := i, priv := true }
      ∧ (∀ m, m ≠ i → (udt1cri_usb_get_free_ctx priv).2.tx_context.getD m default
          = priv.tx_context.getD m default)
      ∧ { (udt1cri_usb_get_free_ctx priv).2 with tx_context := priv.tx_context } = priv)
    ∧ (∀ (priv0 : udt1cri_priv) (ops : List pool_op), priv0.tx_context.length = 20 →
        ∀ i, i < 20 →
          ((pool_run (udt1cri_init_ctx priv0) ops).tx_context.getD i default).ndx = i
          ∨ ((pool_run (udt1cri_init_ctx priv0) ops).tx_context.getD i default).ndx = 20) := by
  refine ⟨?_, ?_⟩
  · obtain ⟨i, hi⟩ := get_free_ctx_of_free priv j hj hfree
    obtain ⟨hi20, hifree, hbelow, hget⟩ := get_free_ctx_some priv i hi
    have hij : i ≤ j := by
      by_contra hlt
      exact hbelow j (by omega) hfree
    refine ⟨i, hij, hi, hifree, hbelow, ?_, ?_, ?_⟩
    · rw [hget]
      exact getD_set_self _ _ _ _ (by omega)
    · intro m hm
      rw [hget]
      exact getD_set_ne _ _ _ _ _ (Ne.symm hm)
    · rw [hget]
  · intro priv0 ops hlen0 i hi
    have h := pool_run_ndx (udt1cri_init_ctx priv0) ops
      (by rw [init_ctx_length, hlen0])
      (fun m hm => Or.inr (by
        simp only [udt1cri_init_ctx, init_ctx_loop_getD]
        rw [if_pos ⟨Nat.zero_le _, by simpa [UDT1CRI_MAX_TX_URBS] using hm, by omega⟩]))
      i hi
    simpa [UDT1CRI_CTX_FREE, UDT1CRI_MAX_TX_URBS] using h

/-- C20 on a pool whose slots 0 and 1 are in use: the acquire returns slot 2. -/
theorem acquire_first_free_witness :
    sample_pool_priv.tx_context.length = 20
    ∧ (sample_pool_priv.tx_context.getD 5 default).ndx = UDT1CRI_CTX_FREE
    ∧ (udt1cri_usb_get_free_ctx sample_pool_priv).1 = some 2
    ∧ (∀ i, i < 20 →
        ((pool_run (udt1cri_init_ctx probe_priv) sample_ops).tx_context.getD i default).ndx = i
        ∨ ((pool_run (udt1cri_init_ctx probe_priv) sample_ops).tx_context.getD i default).ndx
            = 20) :=
  ⟨by decide, by decide, by decide,
    (acquire_first_free sample_pool_priv 5 (by decide) (by decide) (by decide)).2 probe_priv
      sample_ops (by decide)⟩

/-! ## Termination control: samples -/

/-- On a started device the input `"1"` stores 1 and submits `0xA8`, 1; the
inputs `"2"` and `"on"` change nothing. -/
theorem termination_store_samples :
    (termination_store sample_kstrtoint started_priv "1" 2 zero_stack ok_env).2.termination_state
      = 1
    ∧ (termination_store sample_kstrtoint started_priv "1" 2 zero_stack ok_env).2.trace
      = [event.usb_submit_write_urb 0
          [0xA8, 1, 0, 0, 0, 0, 0, 0, 0, 0, 0, 0, 0, 0, 0, 0, 0, 0, 0, 0] 0]
    ∧ termination_store sample_kstrtoint started_priv "2" 2 zero_stack ok_env
      = (2, started_priv)
    ∧ termination_store sample_kstrtoint started_priv "on" 3 zero_stack ok_env
      = (3, started_priv) := by
  decide

/-! ## Keep-alives update the device state -/

/-- C21. For every device state, whatever the first-pass flags hold,
processing a CAN keep-alive sets the error counters to the `tx_err_cnt` and
`rx_err_cnt` of the message, which are the values
`udt1cri_net_get_berr_counter` then returns, and leaves the termination state
unchanged; processing a USB keep-alive sets the termination state to the
`termination_state` of the message and leaves the error counters unchanged.
This holds for the two handlers and for the dispatcher on the tags `0xF5` and
`0xF7`. -/
theorem keep_alive_updates (priv : udt1cri_priv) (msg : List Nat) (skb : Option can_frame)
    (bec : can_berr_counter) :
    (udt1cri_usb_process_ka_can priv msg).bec
      = { txerr := udt1cri_usb_msg_ka_can.tx_err_cnt msg
          rxerr := udt1cri_usb_msg_ka_can.rx_err_cnt msg }
    ∧ udt1cri_net_get_berr_counter (udt1cri_usb_process_ka_can priv msg) bec
      = (0, { txerr := udt1cri_usb_msg_ka_can.tx_err_cnt msg
              rxerr := udt1cri_usb_msg_ka_can.rx_err_cnt msg })
    ∧ (udt1cri_usb_process_ka_can priv msg).termination_state = priv.termination_state
    ∧ (udt1cri_usb_process_ka_usb priv msg).termination_state
      = udt1cri_usb_msg_ka_usb.termination_state msg
    ∧ (udt1cri_usb_process_ka_usb priv msg).bec = priv.bec
    ∧ udt1cri_net_get_berr_counter (udt1cri_usb_process_ka_usb priv msg) bec
      = udt1cri_net_get_berr_counter priv bec
    ∧ (udt1cri_usb_msg_can.cmd_id msg = UDT1CRI_CMD_I_AM_ALIVE_FROM_CAN →
        udt1cri_usb_process_rx priv msg skb = udt1cri_usb_process_ka_can priv msg)
    ∧ (udt1cri_usb_msg_can.cmd_id msg = UDT1CRI_CMD_I_AM_ALIVE_FROM_USB →
        udt1cri_usb_process_rx priv msg skb = udt1cri_usb_process_ka_usb priv msg) := by
  refine ⟨?_, ?_, ?_, ?_, ?_, ?_, ?_, ?_⟩
  · unfold udt1cri_usb_process_ka_can
    split_ifs <;> rfl
  · unfold udt1cri_net_get_berr_counter udt1cri_usb_process_ka_can
    split_ifs <;> rfl
  · unfold udt1cri_usb_process_ka_can
    split_ifs <;> rfl
  · unfold udt1cri_usb_process_ka_usb
    split_ifs <;> rfl
  · unfold udt1cri_usb_process_ka_usb
    split_ifs <;> rfl
  · unfold udt1cri_net_get_berr_counter udt1cri_usb_process_ka_usb
    split_ifs <;> rfl
  · intro h
    simp only [udt1cri_usb_process_rx, h, if_true]
  · intro h
    have hne : ¬ UDT1CRI_CMD_I_AM_ALIVE_FROM_USB = UDT1CRI_CMD_I_AM_ALIVE_FROM_CAN := by decide
    simp only [udt1cri_usb_process_rx, h, hne, if_false, if_true]

/-- Keep-alives on a device whose first-pass flags are already clear: the CAN
keep-alive with counters 7 and 9 and the USB keep-alive with termination
state 1 still update the state, and nothing is reported. -/
theorem keep_alive_updates_sample :
    (process_rx_all { probe_priv with usb_ka_first_pass := false, can_ka_first_pass := false }
        [(ka_can_msg, none), (ka_usb_msg, none)]).bec = { txerr := 7, rxerr := 9 }
    ∧ (process_rx_all { probe_priv with usb_ka_first_pass := false, can_ka_first_pass := false }
        [(ka_can_msg, none), (ka_usb_msg, none)]).termination_state = 1
    ∧ (process_rx_all { probe_priv with usb_ka_first_pass := false, can_ka_first_pass := false }
        [(ka_can_msg, none), (ka_usb_msg, none)]).trace = [] := by
  decide

/-! ## Transmit request -/

theorem xmit_nomem_tx_context (priv : udt1cri_priv) (ctx : Nat) (skb : Option can_frame) :
    (udt1cri_usb_xmit_nomem priv ctx skb).2.tx_context = priv.tx_context := rfl

theorem can_put_echo_skb_tx_context (priv : udt1cri_priv) (cf : can_frame) (idx : Nat) :
    (can_put_echo_skb priv cf idx).tx_context = priv.tx_context := by
  unfold can_put_echo_skb
  split_ifs <;> rfl

/-- The pool after `udt1cri_usb_xmit` took slot `slot` for a CAN frame, whatever
the kernel answered: the slot holds the low nibble of the DLC byte and has its
`can` flag set. -/
theorem xmit_frame_tx_context (priv : udt1cri_priv) (usb_msg : List Nat) (cf : can_frame)
    (env : xmit_env) (slot : Nat) (hlen : priv.tx_context.length = 20)
    (hslot : (udt1cri_usb_get_free_ctx priv).1 = some slot) :
    (udt1cri_usb_xmit priv usb_msg (some cf) env).2.tx_context
      = priv.tx_context.set slot
          { priv := true, ndx := slot,
            dlc := udt1cri_usb_msg_can.dlc usb_msg &&& UDT1CRI_DLC_MASK, can := true } := by
  obtain ⟨hk, _, _, hget⟩ := get_free_ctx_some priv slot hslot
  have hk2 : slot < priv.tx_context.length := by omega
  have hfin : ∀ c1 c2 : udt1cri_usb_ctx,
      ((priv.tx_context.set slot c1).set slot
          { (priv.tx_context.set slot c1).getD slot default with dlc := c2.dlc }).set slot
        { ((priv.tx_context.set slot c1).set slot
            { (priv.tx_context.set slot c1).getD slot default with dlc := c2.dlc }).getD slot
              default with can := true }
      = priv.tx_context.set slot { priv := c1.priv, ndx := c1.ndx, dlc := c2.dlc, can := true }
      := by
    intro c1 c2
    rw [getD_set_self _ _ _ _ hk2,
      getD_set_self _ _ _ _ (by rw [List.length_set]; exact hk2), List.set_set, List.set_set]
  have h := hfin { priv.tx_context.getD slot default with ndx := slot, priv := true }
    { priv := false, ndx := 0, dlc := udt1cri_usb_msg_can.dlc usb_msg &&& UDT1CRI_DLC_MASK,
      can := false }
  unfold udt1cri_usb_xmit
  rw [hget]
  simp only []
  split_ifs <;>
    simp only [xmit_nomem_tx_context, can_put_echo_skb_tx_context] <;> exact h

/-- C22. For every CAN frame with `can_dlc` in 0..8 the message built by
`udt1cri_usb_start_xmit` has tag `0xA3`, a DLC byte whose low 4 bits are the
`can_dlc` of the frame and whose bit `0x40` is set exactly when the frame is a
remote-transmission request, an identifier field that reads back as the 32-bit
`can_id` of the frame, and the 8 data bytes of the frame; and the `dlc`
recorded in the slot the send acquires is the `can_dlc` of the frame, without
the RTR bit. -/
theorem start_xmit_dlc_byte (cf : can_frame) (stack : List Nat) (hdlc : cf.can_dlc ≤ 8)
    (hid : cf.can_id < 2 ^ 32) (hdata : cf.data.length = 8) (hstack : stack.length = 20) :
    udt1cri_usb_msg_can.cmd_id (udt1cri_usb_start_xmit_msg cf stack) = 0xA3
    ∧ udt1cri_usb_msg_can.dlc (udt1cri_usb_start_xmit_msg cf stack) &&& UDT1CRI_DLC_MASK
      = cf.can_dlc
    ∧ (udt1cri_usb_msg_can.dlc (udt1cri_usb_start_xmit_msg cf stack) &&& UDT1CRI_DLC_RTR_MASK ≠ 0
        ↔ cf.can_id &&& CAN_RTR_FLAG ≠ 0)
    ∧ le32_to_cpu (udt1cri_usb_msg_can.eid (udt1cri_usb_start_xmit_msg cf stack)) = cf.can_id
    ∧ udt1cri_usb_msg_can.data (udt1cri_usb_start_xmit_msg cf stack) = cf.data
    ∧ (∀ (priv : udt1cri_priv) (env : xmit_env) (slot : Nat),
        priv.tx_context.length = 20 → (udt1cri_usb_get_free_ctx priv).1 = some slot →
        ((udt1cri_usb_start_xmit priv cf stack env).2.tx_context.getD slot default).dlc
          = cf.can_dlc
        ∧ ((udt1cri_usb_start_xmit priv cf stack env).2.tx_context.getD slot default).can
          = true) := by
  obtain ⟨id, dlc, data⟩ := cf
  obtain ⟨b0, b1, b2, b3, b4, b5, b6, b7, b8, b9, b10, b11, b12, b13, b14, b15, b16, b17, b18,
    b19, rfl⟩ := list_of_length_20 stack hstack
  obtain ⟨d0, d1, d2, d3, d4, d5, d6, d7, rfl⟩ := list_of_length_8 data hdata
  simp only at hdlc hid
  have hd : (if id &&& UDT1CRI_CAN_RTR_MASK ≠ 0 then (dlc % 256 ||| UDT1CRI_DLC_RTR_MASK) % 256
      else dlc % 256) &&& UDT1CRI_DLC_MASK = dlc := by
    split <;> (interval_cases dlc <;> rfl)
  have hr : ((if id &&& UDT1CRI_CAN_RTR_MASK ≠ 0 then
        (dlc % 256 ||| UDT1CRI_DLC_RTR_MASK) % 256 else dlc % 256) &&& UDT1CRI_DLC_RTR_MASK ≠ 0
      ↔ id &&& CAN_RTR_FLAG ≠ 0) := by
    have hsame : UDT1CRI_CAN_RTR_MASK = CAN_RTR_FLAG := rfl
    rw [hsame]
    by_cases h : id &&& CAN_RTR_FLAG = 0
    · simp only [h, ne_eq, not_true_eq_false, if_false, iff_false, Decidable.not_not]
      interval_cases dlc <;> rfl
    · simp only [h, ne_eq, not_false_eq_true, if_true, iff_true]
      interval_cases dlc <;> decide
  have hle : id % 256 + 256 * (id / 256 % 256) + 65536 * (id / 65536 % 256)
      + 16777216 * (id / 16777216 % 256) = id := by omega
  refine ⟨?_, ?_, ?_, ?_, ?_, ?_⟩
  · rw [start_xmit_msg_bytes]; rfl
  · rw [start_xmit_msg_bytes]
    simpa only [udt1cri_usb_msg_can.dlc, List.getD_cons_zero, List.getD_cons_succ] using hd
  · rw [start_xmit_msg_bytes]
    simpa only [udt1cri_usb_msg_can.dlc, List.getD_cons_zero, List.getD_cons_succ] using hr
  · rw [start_xmit_msg_bytes]
    simpa only [udt1cri_usb_msg_can.eid, le32_to_cpu, List.drop_succ_cons, List.drop_zero,
      List.take_succ_cons, List.take_zero, List.getD_cons_zero, List.getD_cons_succ] using hle
  · rw [start_xmit_msg_bytes]; rfl
  · intro priv env slot hlen hslot
    have hk := (get_free_ctx_some priv slot hslot).1
    unfold udt1cri_usb_start_xmit
    rw [xmit_frame_tx_context priv _ _ env slot hlen hslot,
      getD_set_self _ _ _ _ (by omega), start_xmit_msg_bytes]
    exact ⟨by simpa only [udt1cri_usb_msg_can.dlc, List.getD_cons_zero, List.getD_cons_succ]
      using hd, rfl⟩

/-- C22 at a remote-request frame of length 3 sent on a started device. -/
theorem start_xmit_dlc_byte_witness :
    udt1cri_usb_msg_can.dlc (udt1cri_usb_start_xmit_msg sample_rtr_frame zero_stack)
        &&& UDT1CRI_DLC_MASK = sample_rtr_frame.can_dlc
    ∧ le32_to_cpu (udt1cri_usb_msg_can.eid (udt1cri_usb_start_xmit_msg sample_rtr_frame
        zero_stack)) = sample_rtr_frame.can_id
    ∧ ((udt1cri_usb_start_xmit started_priv sample_rtr_frame zero_stack
        ok_env).2.tx_context.getD 0 default).dlc = sample_rtr_frame.can_dlc :=
  ⟨(start_xmit_dlc_byte sample_rtr_frame zero_stack (by decide) (by decide) (by decide)
      (by decide)).2.1,
   (start_xmit_dlc_byte sample_rtr_frame zero_stack (by decide) (by decide) (by decide)
      (by decide)).2.2.2.1,
   ((start_xmit_dlc_byte sample_rtr_frame zero_stack (by decide) (by decide) (by decide)
      (by decide)).2.2.2.2.2 started_priv ok_env 0 (by decide) (by decide)).1⟩

/-! ## Bit timing applied twice -/

/-- A request equal to the `bitrate` of a row succeeds with that row. -/
theorem set_bittiming_of_row (priv : udt1cri_priv) (stack : List Nat) (env : xmit_env)
    (row : bitrate_settings) (hrow : row ∈ br_settings)
    (hreq : priv.bittiming.bitrate = row.bt.bitrate) :
    udt1cri_net_set_bittiming priv stack env
      = (0, udt1cri_usb_xmit_change_bitrate
          { priv with bittiming := { row.bt with
              bitrate := if row.bt.bitrate = 19940 then 20000 else row.bt.bitrate } }
          row.kbps stack env) := by
  unfold udt1cri_net_set_bittiming
  rw [hreq, search_row row hrow]
  simp only [effective_row row hrow]

/-- A request no row matches is refused and only reported. -/
theorem set_bittiming_of_miss (priv : udt1cri_priv) (stack : List Nat) (env : xmit_env)
    (h : udt1cri_net_set_bittiming_search priv.bittiming.bitrate = none) :
    udt1cri_net_set_bittiming priv stack env
      = (-EINVAL, { priv with
          trace := priv.trace ++ [event.err_unsupported_bitrate priv.bittiming.bitrate] }) := by
  unfold udt1cri_net_set_bittiming
  rw [h]

theorem xmit_change_bitrate_bittiming (priv : udt1cri_priv) (k : Nat) (stack : List Nat)
    (env : xmit_env) :
    (udt1cri_usb_xmit_change_bitrate priv k stack env).bittiming = priv.bittiming := by
  simp only [udt1cri_usb_xmit_change_bitrate, udt1cri_usb_xmit_cmd, xmit_bittiming]

/-- C23, as stated, fails: a request of 19940 bits/sec is accepted and stores
the effective bitrate 20000, which no row of `br_settings` has, so applying
`udt1cri_net_set_bittiming` to its own result returns `-EINVAL`. -/
theorem set_bittiming_not_fixed_point :
    (udt1cri_net_set_bittiming (request_priv 19940) zero_stack ok_env).1 = 0
    ∧ (udt1cri_net_set_bittiming (request_priv 19940) zero_stack ok_env).2.bittiming.bitrate
      = 20000
    ∧ udt1cri_net_set_bittiming_search 20000 = none
    ∧ (udt1cri_net_set_bittiming
        (udt1cri_net_set_bittiming (request_priv 19940) zero_stack ok_env).2 zero_stack
        ok_env).1 = -EINVAL := by
  decide

/-- C23, amended. For every bitrate `udt1cri_net_set_bittiming` accepts other
than 19940 (the 17 rows whose `bitrate` is their own effective bitrate) the
record stored is the matched row itself, its bitrate is accepted and selects
the same row, and applying the function again to the result succeeds, leaves
the bit-timing record as it is and passes the same rate code to
`udt1cri_usb_xmit_change_bitrate`. For a request of 19940 the bitrate stored
is 20000, and a second application returns `-EINVAL` and leaves the record. -/
theorem set_bittiming_fixed_point (priv : udt1cri_priv) (stack stack2 : List Nat)
    (env env2 : xmit_env) (row : bitrate_settings) (hrow : row ∈ br_settings)
    (hreq : priv.bittiming.bitrate = row.bt.bitrate) (hne : row.bt.bitrate ≠ 19940) :
    (udt1cri_net_set_bittiming priv stack env).1 = 0
    ∧ (udt1cri_net_set_bittiming priv stack env).2.bittiming = row.bt
    ∧ udt1cri_net_set_bittiming_search
        (udt1cri_net_set_bittiming priv stack env).2.bittiming.bitrate = some row
    ∧ udt1cri_net_set_bittiming (udt1cri_net_set_bittiming priv stack env).2 stack2 env2
      = (0, udt1cri_usb_xmit_change_bitrate (udt1cri_net_set_bittiming priv stack env).2
          row.kbps stack2 env2)
    ∧ (udt1cri_net_set_bittiming (udt1cri_net_set_bittiming priv stack env).2 stack2
        env2).2.bittiming = (udt1cri_net_set_bittiming priv stack env).2.bittiming
    ∧ (∀ (p : udt1cri_priv) (st st2 : List Nat) (e e2 : xmit_env),
        p.bittiming.bitrate = 19940 →
        (udt1cri_net_set_bittiming p st e).1 = 0
        ∧ (udt1cri_net_set_bittiming p st e).2.bittiming.bitrate = 20000
        ∧ (udt1cri_net_set_bittiming (udt1cri_net_set_bittiming p st e).2 st2 e2).1 = -EINVAL
        ∧ (udt1cri_net_set_bittiming (udt1cri_net_set_bittiming p st e).2 st2 e2).2.bittiming
          = (udt1cri_net_set_bittiming p st e).2.bittiming) := by
  have h1 := set_bittiming_of_row priv stack env row hrow hreq
  rw [if_neg hne] at h1
  have hb : (udt1cri_net_set_bittiming priv stack env).2.bittiming = row.bt := by
    rw [h1, xmit_change_bitrate_bittiming]
  have h2 := set_bittiming_of_row (udt1cri_net_set_bittiming priv stack env).2 stack2 env2 row
    hrow (by rw [hb])
  rw [if_neg hne] at h2
  have heta : ({ (udt1cri_net_set_bittiming priv stack env).2 with
      bittiming := { row.bt with bitrate := row.bt.bitrate } } : udt1cri_priv)
      = (udt1cri_net_set_bittiming priv stack env).2 := by
    have : ({ row.bt with bitrate := row.bt.bitrate } : can_bittiming) = row.bt := rfl
    rw [this, ← hb]
  rw [heta] at h2
  refine ⟨by rw [h1], hb, by rw [hb]; exact search_row row hrow, h2, ?_, ?_⟩
  · rw [h2, xmit_change_bitrate_bittiming]
  · intro p st st2 e e2 hp
    have hp1 := set_bittiming_of_row p st e br_settings_row0 (by decide) hp
    have hbit : (udt1cri_net_set_bittiming p st e).2.bittiming.bitrate = 20000 := by
      rw [hp1, xmit_change_bitrate_bittiming]
      rfl
    have hnone : udt1cri_net_set_bittiming_search 20000 = none := by decide
    have hp2 := set_bittiming_of_miss (udt1cri_net_set_bittiming p st e).2 st2 e2
      (by rw [hbit]; exact hnone)
    exact ⟨by rw [hp1], hbit, by rw [hp2], by rw [hp2]⟩

/-- C23, amended, at a request of 150375 bits/sec on a started device. -/
theorem set_bittiming_fixed_point_witness :
    (request_priv 150375).bittiming.bitrate = 150375
    ∧ (udt1cri_net_set_bittiming (request_priv 150375) zero_stack ok_env).2.bittiming.bitrate
      = 150375
    ∧ (udt1cri_net_set_bittiming
        (udt1cri_net_set_bittiming (request_priv 150375) zero_stack ok_env).2 aa_stack
        ok_env).2.bittiming
      = (udt1cri_net_set_bittiming (request_priv 150375) zero_stack ok_env).2.bittiming :=
  ⟨rfl, by decide,
    (set_bittiming_fixed_point (request_priv 150375) zero_stack aa_stack ok_env ok_env
      { bt := { bitrate := 150375, sample_point := 789, tq := 350, prop_seg := 8,
                phase_seg1 := 6, phase_seg2 := 4, sjw := 1, brp := 14 }, kbps := 150 }
      (by decide) rfl (by decide)).2.2.2.2.1⟩

/-! ## Writes handed to the USB core -/

theorem submitted_writes_append (a b : List event) :
    submitted_writes (a ++ b) = submitted_writes a ++ submitted_writes b := by
  simp only [submitted_writes, List.filterMap_append]

theorem get_free_ctx_trace (priv : udt1cri_priv) :
    (udt1cri_usb_get_free_ctx priv).2.trace = priv.trace := rfl

/-- What a control command adds to the writes the USB core took: its message,
when a slot is free, both allocations succeed and `usb_submit_urb` returns 0,
and nothing otherwise. -/
theorem xmit_cmd_submitted (priv : udt1cri_priv) (usb_msg : List Nat) (env : xmit_env) :
    submitted_writes (udt1cri_usb_xmit_cmd priv usb_msg env).trace
      = submitted_writes priv.trace
        ++ (if (udt1cri_usb_get_free_ctx priv).1 ≠ none ∧ env.urb = true ∧ env.buf = true
              ∧ env.err = 0
            then [usb_msg.take UDT1CRI_USB_TX_BUFF_SIZE] else []) := by
  unfold udt1cri_usb_xmit_cmd udt1cri_usb_xmit
  have ht := get_free_ctx_trace priv
  rcases hg : udt1cri_usb_get_free_ctx priv with ⟨_ | ctx, p⟩
  · rw [hg] at ht
    simp only at ht
    simp [submitted_writes_append, ht, submitted_writes]
  · rw [hg] at ht
    simp only at ht
    rcases env with ⟨_ | _, _ | _, err⟩
    · simp [submitted_writes_append, ht, submitted_writes, udt1cri_usb_xmit_nomem,
        can_free_echo_skb]
    · simp [submitted_writes_append, ht, submitted_writes, udt1cri_usb_xmit_nomem,
        can_free_echo_skb]
    · simp [submitted_writes_append, ht, submitted_writes, udt1cri_usb_xmit_nomem,
        can_free_echo_skb]
    · by_cases herr : err = 0
      · simp [submitted_writes_append, ht, submitted_writes, herr]
      · by_cases hnd : err = -ENODEV
        · subst hnd
          simp [submitted_writes_append, ht, submitted_writes, udt1cri_usb_xmit_nomem,
            can_free_echo_skb, ENODEV]
        · simp [submitted_writes_append, ht, submitted_writes, udt1cri_usb_xmit_nomem,
            can_free_echo_skb, herr, hnd]

/-- With no free slot a control command only stops the queue. -/
theorem xmit_cmd_pool_full (priv : udt1cri_priv) (usb_msg : List Nat) (env : xmit_env)
    (h : (udt1cri_usb_get_free_ctx priv).1 = none) :
    udt1cri_usb_xmit_cmd priv usb_msg env
      = { priv with queue_stopped := true, trace := priv.trace ++ [event.netif_stop_queue] } := by
  unfold udt1cri_usb_xmit_cmd udt1cri_usb_xmit
  rcases hl : udt1cri_usb_get_free_ctx_loop priv.tx_context UDT1CRI_MAX_TX_URBS 0 with ⟨r, t2⟩
  have hr : r = none := by simpa [udt1cri_usb_get_free_ctx, hl] using h
  subst hr
  have ht := (get_free_ctx_loop_none _ _ _ _ hl).1
  subst ht
  simp only [udt1cri_usb_get_free_ctx, hl]

/-- The 20 bytes sent for a change-bitrate command with the rate code of a row. -/
theorem change_bitrate_msg_take (row : bitrate_settings) (hrow : row ∈ br_settings)
    (stack : List Nat) (hstack : stack.length = 20) :
    (udt1cri_usb_msg_change_bitrate row.kbps stack).take UDT1CRI_USB_TX_BUFF_SIZE
      = [UDT1CRI_CMD_CHANGE_BIT_RATE, row.kbps / 256, row.kbps % 256] ++ stack.drop 3 := by
  obtain ⟨b0, b1, b2, b3, b4, b5, b6, b7, b8, b9, b10, b11, b12, b13, b14, b15, b16, b17,
    b18, b19, rfl⟩ := list_of_length_20 stack hstack
  simp only [udt1cri_usb_msg_change_bitrate, (kbps_bytes_row row hrow).1,
    (kbps_bytes_row row hrow).2]
  rfl

/-- The 20 bytes sent for a set-termination command. -/
theorem termination_msg_take (v : Nat) (hv : v = 0 ∨ v = 1)
    (stack : List Nat) (hstack : stack.length = 20) :
    (udt1cri_usb_msg_termination v stack).take UDT1CRI_USB_TX_BUFF_SIZE
      = [UDT1CRI_CMD_SETUP_TERMINATION_RESISTANCE, v] ++ stack.drop 2 := by
  obtain ⟨b0, b1, b2, b3, b4, b5, b6, b7, b8, b9, b10, b11, b12, b13, b14, b15, b16, b17,
    b18, b19, rfl⟩ := list_of_length_20 stack hstack
  rcases hv with rfl | rfl <;> rfl

/-! ## Bitrate requests through the CAN device layer -/

/-- For each of the 18 bitrates of the error text, the bitrate the CAN device
layer computes with the clock and the constants of the driver is the `bitrate`
of a row of `br_settings`, whose rate code is the request in kbit/s. The
effective bitrate of that row is the request, but for 150000, 175000, 225000,
275000 and 300000. -/
theorem nominal_rate_row : ∀ n ∈ nominal_bitrates, ∃ row ∈ br_settings,
    can_calc_bittiming udt1cri_bittiming_const UDT1CRI_CAN_CLOCK n = some row.bt.bitrate
    ∧ row.kbps = n / 1000
    ∧ (if row.bt.bitrate = 19940 then 20000 else row.bt.bitrate)
      = (if n = 150000 then 150375 else if n = 175000 then 175438
         else if n = 225000 then 227272 else if n = 275000 then 277777
         else if n = 300000 then 303030 else n) := by
  decide!

/-- For each of the 18 bitrates of the error text, paired with the `bitrate` of
the row of `br_settings` at the same position: that `bitrate` is within the
timing ranges of the driver, and no other bitrate within them is as near to the
request. So whichever timing of least bitrate error the kernel calculation
settles on, the bitrate it hands to the driver is this one. -/
theorem nominal_nearest_rate :
    ∀ p ∈ nominal_bitrates.zip (br_settings.map (fun r => r.bt.bitrate)),
      p.2 ∈ achievable_bitrates udt1cri_bittiming_const UDT1CRI_CAN_CLOCK
      ∧ ∀ r ∈ achievable_bitrates udt1cri_bittiming_const UDT1CRI_CAN_CLOCK,
        (if r ≤ p.1 then p.1 - r else r - p.1) ≤ (if p.2 ≤ p.1 then p.1 - p.2 else p.2 - p.1) →
        r = p.2 := by
  decide!

/-- C4, as stated, fails: a request of 125000 bits/sec is answered with 0
though no change-bitrate command is issued, when all 20 slots are in use (the
call only stops the queue) and when `usb_alloc_urb` fails on a started device
(the call only reports the failure and drops the message). -/
theorem set_bittiming_accepted_not_sent :
    125000 ∈ nominal_bitrates
    ∧ can_calc_bittiming udt1cri_bittiming_const UDT1CRI_CAN_CLOCK 125000 = some 125000
    ∧ (udt1cri_net_set_bittiming (full_request_priv 125000) zero_stack ok_env).1 = 0
    ∧ (udt1cri_net_set_bittiming (full_request_priv 125000) zero_stack ok_env).2.trace
      = [event.netif_stop_queue]
    ∧ submitted_writes
        (udt1cri_net_set_bittiming (full_request_priv 125000) zero_stack ok_env).2.trace = []
    ∧ (udt1cri_net_set_bittiming (request_priv 125000) zero_stack no_urb_env).1 = 0
    ∧ (udt1cri_net_set_bittiming (request_priv 125000) zero_stack no_urb_env).2.trace
      = [event.err_no_urb, event.dev_kfree_skb none]
    ∧ submitted_writes
        (udt1cri_net_set_bittiming (request_priv 125000) zero_stack no_urb_env).2.trace = [] := by
  decide!

/-- C4, amended. Each of the 18 bitrates 20000, 33333, 50000, 80000, 83333,
100000, 125000, 150000, 175000, 200000, 225000, 250000, 275000, 300000, 500000,
625000, 800000 and 1000000, when requested, is accepted: the CAN device layer
hands `udt1cri_net_set_bittiming` the `bitrate` of a row of `br_settings`, and
the function returns 0, stores the timing of that row and passes one
change-bitrate message with the rate code `n / 1000` to the transmit path. The
effective bitrates stored for 150000, 175000, 225000, 275000 and 300000 are
150375, 175438, 227272, 277777 and 303030, and the request itself for the 13
others. The message is handed to the USB core exactly when a slot is free, both
allocations succeed and `usb_submit_urb` returns 0; else nothing is sent, and
with no free slot the call only stops the queue. -/
theorem set_bittiming_nominal_request (priv : udt1cri_priv) (stack : List Nat) (env : xmit_env)
    (n : Nat) (hn : n ∈ nominal_bitrates) :
    ∃ row ∈ br_settings,
      can_calc_bittiming udt1cri_bittiming_const UDT1CRI_CAN_CLOCK n = some row.bt.bitrate
      ∧ row.kbps = n / 1000
      ∧ can_changelink priv n stack env
        = (0, udt1cri_usb_xmit_change_bitrate
            { priv with bittiming := { row.bt with
                bitrate := if row.bt.bitrate = 19940 then 20000 else row.bt.bitrate } }
            row.kbps stack env)
      ∧ (can_changelink priv n stack env).2.bittiming
        = { row.bt with bitrate := if row.bt.bitrate = 19940 then 20000 else row.bt.bitrate }
      ∧ (can_changelink priv n stack env).2.bittiming.bitrate
        = (if n = 150000 then 150375 else if n = 175000 then 175438
           else if n = 225000 then 227272 else if n = 275000 then 277777
           else if n = 300000 then 303030 else n)
      ∧ submitted_writes (can_changelink priv n stack env).2.trace
        = submitted_writes priv.trace
          ++ (if (udt1cri_usb_get_free_ctx priv).1 ≠ none ∧ env.urb = true ∧ env.buf = true
                ∧ env.err = 0
              then [(udt1cri_usb_msg_change_bitrate (n / 1000) stack).take
                UDT1CRI_USB_TX_BUFF_SIZE]
              else [])
      ∧ (stack.length = 20 →
          (udt1cri_usb_msg_change_bitrate (n / 1000) stack).take UDT1CRI_USB_TX_BUFF_SIZE
            = [UDT1CRI_CMD_CHANGE_BIT_RATE, n / 1000 / 256, n / 1000 % 256] ++ stack.drop 3)
      ∧ ((udt1cri_usb_get_free_ctx priv).1 = none →
          (can_changelink priv n stack env).2
            = { priv with
                bittiming := { row.bt with
                  bitrate := if row.bt.bitrate = 19940 then 20000 else row.bt.bitrate }
                queue_stopped := true
                trace := priv.trace ++ [event.netif_stop_queue] }) := by
  obtain ⟨row, hrow, hcalc, hkbps, heff⟩ := nominal_rate_row n hn
  have hlink : can_changelink priv n stack env
      = (0, udt1cri_usb_xmit_change_bitrate
          { priv with bittiming := { row.bt with
              bitrate := if row.bt.bitrate = 19940 then 20000 else row.bt.bitrate } }
          row.kbps stack env) := by
    unfold can_changelink
    rw [hcalc]
    exact set_bittiming_of_row _ stack env row hrow rfl
  refine ⟨row, hrow, hcalc, hkbps, hlink, ?_, ?_, ?_, ?_, ?_⟩
  · rw [hlink]
    simp only [xmit_change_bitrate_bittiming]
  · rw [hlink]
    simp only [xmit_change_bitrate_bittiming]
    exact heff
  · rw [hlink]
    simp only [udt1cri_usb_xmit_change_bitrate]
    rw [xmit_cmd_submitted, hkbps]
    rfl
  · intro hstack
    rw [← hkbps]
    exact change_bitrate_msg_take row hrow stack hstack
  · intro hfull
    rw [hlink]
    simp only [udt1cri_usb_xmit_change_bitrate]
    rw [xmit_cmd_pool_full _ _ _ (by simpa [udt1cri_usb_get_free_ctx] using hfull)]

/-- C4, amended, at a request of 150000 bits/sec on a started device whose send
goes through: 150375 is stored and the one message sent is `0xA1`, 0, 150. -/
theorem set_bittiming_nominal_request_witness :
    150000 ∈ nominal_bitrates
    ∧ (can_changelink started_priv 150000 zero_stack ok_env).1 = 0
    ∧ (can_changelink started_priv 150000 zero_stack ok_env).2.bittiming.bitrate = 150375
    ∧ submitted_writes (can_changelink started_priv 150000 zero_stack ok_env).2.trace
      = [[0xA1, 0, 150, 0, 0, 0, 0, 0, 0, 0, 0, 0, 0, 0, 0, 0, 0, 0, 0, 0]] := by
  obtain ⟨row, _, _, _, hlink, _, hrate, hsent, _, _⟩ :=
    set_bittiming_nominal_request started_priv zero_stack ok_env 150000 (by decide)
  refine ⟨by decide, ?_, ?_, ?_⟩
  · rw [hlink]
  · rw [hrate]
    rfl
  · rw [hsent]
    decide

/-! ## Termination control: outcome -/

/-- C14, as stated, fails: the input `"1"` is stored as the termination state
though no set-termination command is issued, when all 20 slots are in use (the
call only stops the queue) and when `usb_alloc_urb` fails on a started device
(the call only reports the failure and drops the message). -/
theorem termination_store_not_sent :
    sample_kstrtoint "1" = some 1
    ∧ full_priv.termination_state = 0
    ∧ (termination_store sample_kstrtoint full_priv "1" 2 zero_stack ok_env).2.termination_state
      = 1
    ∧ (termination_store sample_kstrtoint full_priv "1" 2 zero_stack ok_env).2.trace
      = [event.netif_stop_queue]
    ∧ submitted_writes
        (termination_store sample_kstrtoint full_priv "1" 2 zero_stack ok_env).2.trace = []
    ∧ (termination_store sample_kstrtoint started_priv "1" 2 zero_stack
        no_urb_env).2.termination_state = 1
    ∧ (termination_store sample_kstrtoint started_priv "1" 2 zero_stack no_urb_env).2.trace
      = [event.err_no_urb, event.dev_kfree_skb none]
    ∧ submitted_writes
        (termination_store sample_kstrtoint started_priv "1" 2 zero_stack no_urb_env).2.trace
      = [] := by
  decide

/-- C14, amended. For every input string: when the kernel parser reads it as
the integer `v` and `v` is 0 or 1, `termination_store` stores `v` as the
termination state and passes one set-termination message carrying `v` to the
transmit path; that message is handed to the USB core exactly when a slot is
free, both allocations succeed and `usb_submit_urb` returns 0, else nothing is
sent, and with no free slot the call only stores `v` and stops the queue. For
every other input (a parse error, or any other integer) it returns with the
state as it was, so nothing is stored and nothing is sent. -/
theorem termination_store_outcome (kstrtoint : String → Option Int) (priv : udt1cri_priv)
    (buf : String) (count : Nat) (stack : List Nat) (env : xmit_env) :
    (∀ v : Nat, (v = 0 ∨ v = 1) → kstrtoint buf = some (v : Int) →
      termination_store kstrtoint priv buf count stack env
        = (count, udt1cri_usb_xmit_termination { priv with termination_state := v } v stack env)
      ∧ (termination_store kstrtoint priv buf count stack env).2.termination_state = v
      ∧ submitted_writes (termination_store kstrtoint priv buf count stack env).2.trace
        = submitted_writes priv.trace
          ++ (if (udt1cri_usb_get_free_ctx priv).1 ≠ none ∧ env.urb = true ∧ env.buf = true
                ∧ env.err = 0
              then [(udt1cri_usb_msg_termination v stack).take UDT1CRI_USB_TX_BUFF_SIZE]
              else [])
      ∧ (stack.length = 20 →
          (udt1cri_usb_msg_termination v stack).take UDT1CRI_USB_TX_BUFF_SIZE
            = [UDT1CRI_CMD_SETUP_TERMINATION_RESISTANCE, v] ++ stack.drop 2)
      ∧ ((udt1cri_usb_get_free_ctx priv).1 = none →
          (termination_store kstrtoint priv buf count stack env).2
            = { priv with termination_state := v, queue_stopped := true
                          trace := priv.trace ++ [event.netif_stop_queue] }))
    ∧ ((kstrtoint buf = none ∨ ∃ v : Int, kstrtoint buf = some v ∧ v ≠ 0 ∧ v ≠ 1) →
      termination_store kstrtoint priv buf count stack env = (count, priv)) := by
  refine ⟨?_, ?_⟩
  · intro v hv hparse
    have hstore : termination_store kstrtoint priv buf count stack env
        = (count, udt1cri_usb_xmit_termination { priv with termination_state := v } v
            stack env) := by
      unfold termination_store
      rw [hparse]
      rcases hv with rfl | rfl <;> simp
    refine ⟨hstore, ?_, ?_, ?_, ?_⟩
    · rw [hstore]
      simp only [udt1cri_usb_xmit_termination, udt1cri_usb_xmit_cmd, xmit_termination_state]
    · rw [hstore]
      simp only [udt1cri_usb_xmit_termination]
      rw [xmit_cmd_submitted]
      rfl
    · exact termination_msg_take v hv stack
    · intro hfull
      rw [hstore]
      simp only [udt1cri_usb_xmit_termination]
      rw [xmit_cmd_pool_full _ _ _ (by simpa [udt1cri_usb_get_free_ctx] using hfull)]
  · rintro (hnone | ⟨v, hsome, h0, h1⟩)
    · unfold termination_store
      rw [hnone]
      simp [EINVAL]
    · unfold termination_store
      rw [hsome]
      simp [h0, h1]

/-- C14, amended, on a started device whose send goes through: the input `"1"`
stores 1 and sends the one message `0xA8`, 1; the input `"2"` changes
nothing. -/
theorem termination_store_outcome_witness :
    sample_kstrtoint "1" = some 1 ∧ sample_kstrtoint "2" = some 2
    ∧ (termination_store sample_kstrtoint started_priv "1" 2 zero_stack ok_env).2.termination_state
      = 1
    ∧ submitted_writes
        (termination_store sample_kstrtoint started_priv "1" 2 zero_stack ok_env).2.trace
      = [[0xA8, 1, 0, 0, 0, 0, 0, 0, 0, 0, 0, 0, 0, 0, 0, 0, 0, 0, 0, 0]]
    ∧ termination_store sample_kstrtoint started_priv "2" 2 zero_stack ok_env
      = (2, started_priv) := by
  have h := termination_store_outcome sample_kstrtoint started_priv "1" 2 zero_stack ok_env
  have h2 := termination_store_outcome sample_kstrtoint started_priv "2" 2 zero_stack ok_env
  obtain ⟨_, hstate, hsent, _, _⟩ := h.1 1 (Or.inr rfl) (by decide)
  refine ⟨by decide, by decide, hstate, ?_, h2.2 (Or.inr ⟨2, by decide, by decide, by decide⟩)⟩
  rw [hsent]
  decide

end Udt1cri
